import Mathlib

set_option maxRecDepth 4000

namespace CoderAI

/-
  Verification of the request-to-stream pipeline of the coder.ai repository
  (src/app/api/generateCode/route.ts).

  The development shallowly embeds the POST handler: the zod request schema,
  the system-prompt composition (including the dedent post-processing step
  applied to the template text), the per-turn Gemini adaptation, and the
  streaming relay, as executable Lean functions, and proves the specified
  properties about them.
-/

/-! ### Characters and line structure

The dedent package and the JS string functions used by the handler operate
on JS strings.  We model a JS string as a `List Char` (all text involved is
BMP-only, so code points and UTF-16 units agree) and JS whitespace (the
regex class `\s` restricted to the characters that occur here, plus the
characters removed by `String.prototype.trim`) as `jsWs`. -/

def jsWs (c : Char) : Bool :=
  c == ' ' || c == '\t' || c == '\n' || c == '\r' ||
    c == '\x0b' || c == '\x0c' || c == '\u00A0'

/-- Model of `String.prototype.split("\n")`. -/
def splitNl : List Char → List (List Char)
  | [] => [[]]
  | c :: rest =>
    if c = '\n' then [] :: splitNl rest
    else
      match splitNl rest with
      | [] => [[c]]
      | line :: lines => (c :: line) :: lines

/-- Model of `Array.prototype.join("\n")` on a list of lines. -/
def joinNl : List (List Char) → List Char
  | [] => []
  | [l] => l
  | l :: ls => l ++ '\n' :: joinNl ls

/-- Drop the trailing run of JS whitespace (the right half of `trim`). -/
def wsDropBack (l : List Char) : List Char :=
  (l.reverse.dropWhile jsWs).reverse

/-- Model of `String.prototype.trim`: drop leading and trailing whitespace. -/
def trimBoth (l : List Char) : List Char :=
  wsDropBack (l.dropWhile jsWs)

/-- The lines of a string that still carry content after trimming each line:
every line of the string, trimmed, with the all-whitespace lines removed.
This is the abstraction in which the `<component>` block structure of the
composed instruction is stated. -/
def contentLines (s : List Char) : List (List Char) :=
  ((splitNl s).map trimBoth).filter (fun l => l ≠ [])

/-! ### Trimming lemmas -/

/-! ### contentLines under cons, append, reverse, and trim -/

/-- Auxiliary: apply a function to the final line of a line list. -/
def onLast (f : List Char → List Char) : List (List Char) → List (List Char)
  | [] => []
  | [l] => [f l]
  | l :: ls => l :: onLast f ls

/-! ### The dedent transformation

Model of the `dedent` npm package as invoked by `getSystemPrompt`
(`dedent(systemPrompt)`, a plain function call on an already-built string,
so no escape-sequence processing applies): split into lines, find the
minimal indentation among lines that consist of at least one whitespace
character followed by a non-whitespace character, slice that many leading
characters off every line that starts with a space or a tab, re-join, and
trim the result. -/

/-- The indentation width of a line, in the sense of the `dedent` regex
`^(\s+)\S+`: defined only when the line starts with whitespace and still
has a non-whitespace character after the leading run. -/
def lineIndent (l : List Char) : Option Nat :=
  let r := (l.takeWhile jsWs).length
  if 0 < r ∧ r < l.length then some r else none

/-- The minimal indentation over all lines (the `mindent` accumulator of
the `dedent` package). -/
def mindentOf (lines : List (List Char)) : Option Nat :=
  lines.foldl
    (fun acc l =>
      match lineIndent l with
      | none => acc
      | some v =>
        match acc with
        | none => some v
        | some m => some (min m v))
    none

/-- Slice `k` characters off a line iff it starts with a space or a tab
(`line[0] === " " || line[0] === "\t"` in the package). -/
def stripLine (k : Nat) (l : List Char) : List Char :=
  match l with
  | [] => []
  | c :: _ => if c == ' ' || c == '\t' then l.drop k else l

/-- The whole dedent transformation on a character list. -/
def dedentChars (s : List Char) : List Char :=
  let lines := splitNl s
  trimBoth
    (match mindentOf lines with
     | none => s
     | some k => joinNl (lines.map (stripLine k)))

/-- Model of `dedent` from the dedent npm package on a JS string. -/
def dedent (s : String) : String :=
  ⟨dedentChars s.data⟩

/-! ### The system prompt template

The template literal of `getSystemPrompt` (route.ts lines 93-1292), split
into segments at newline boundaries; `basePrompt` re-joins the segments
with the newlines so that it equals the source template text exactly. -/

def bp0 : String :=
  "\n    You are an expert frontend React engineer who is also a great UI/UX designer. Follow the instructions carefully:\n\n    - Think carefully step by step.\n    - Create a React component for whatever the user asked you to create and make sure it can run by itself by using a default export\n    - Make sure the React app is interactive and functional by creating state when needed and having no required props\n    - If you use any imports from React like useState or useEffect, make sure to import them directly\n    - Use TypeScript as the language for the React component\n    - Use Tailwind classes for styling. DO NOT USE ARBITRARY VALUES (e.g. \x60h-[600px]\x60). Make sure to use a consistent color palette.\n    - Use Tailwind margin and padding classes to style the components and ensure the components are spaced out nicely"

def bp1 : String :=
  "    - Please ONLY return the full React code starting with the imports, nothing else. It\x27s very important that you only return the React code with imports. DO NOT START WITH \x60\x60\x60typescript or \x60\x60\x60javascript or \x60\x60\x60tsx or \x60\x60\x60.\n    - ONLY IF the user asks for a dashboard, graph or chart, the recharts library is available to be imported.\n    - The lucide-react library is available for icons but ONLY: Heart, Shield, Clock, Users, Play, Home, Search, Menu, User, Settings, Mail, Bell, Calendar, Clock, Heart, Star, Upload, Download, Trash, Edit, Plus, Minus, Check, X, ArrowRight\n    - For placeholder images, please use a <div className=\"bg-gray-200 border-2 border-dashed rounded-xl w-16 h-16\" />\n\n    CRITICAL IMPORT RULES - YOU MUST FOLLOW THESE:\n    1. For shadcn components, ALWAYS import each component from its specific path:\n       ✅ CORRECT:\n       import \x7b Button \x7d from \"@/components/ui/button\""

def bp2 : String :=
  "       import \x7b Card, CardContent \x7d from \"@/components/ui/card\"\n       import \x7b Avatar, AvatarImage, AvatarFallback \x7d from \"@/components/ui/avatar\"\n       \n       ❌ WRONG:\n       import \x7b Button, Card, CardContent \x7d from \"@/components/ui\"\n       import \x7b Button, Card, CardContent \x7d from \"/components/ui\"\n\n    2. For icons, ONLY these specific icons are available from lucide-react:\n       - Heart, Shield, Clock, Users, Play, Home, Search, Menu, User\n       - Settings, Mail, Bell, Calendar, Heart, Star\n       - Upload, Download, Trash, Edit, Plus, Minus, Check, X, ArrowRight\n       \n       ❌ WRONG: LinkedIn, GitHub, Twitter (these are not available)\n       ✅ Use the available icons creatively as alternatives\n\n    3. For React imports:\n       ✅ CORRECT: import \x7b useState, useEffect \x7d from \"react\"\n       ✅ CORRECT: import React from \"react\"\n\n    4. For images:\n       ❌ WRONG: Don\x27t use external image URLs"

def bp3 : String :=
  "       ✅ CORRECT: Use placeholder div: <div className=\"bg-gray-200 border-2 border-dashed rounded-xl w-16 h-16\" />\n       ✅ CORRECT: Use placeholder API: <img src=\"/api/placeholder/400/320\" alt=\"placeholder\" />\n\n    OTHER CRITICAL RULES:\n    - Create a React component that can run by itself (use default export)\n    - Make the app interactive with state when needed (no required props)\n    - Use TypeScript\n    - Use ONLY standard Tailwind classes - NO ARBITRARY VALUES like h-[600px]\n    - Use proper Tailwind spacing (margin/padding) classes\n    - ONLY return the React code with imports - no backticks or language tags\n\n    Here\x27s an example of a well-structured component that follows these guidelines:\n\nimport React from \x27react\x27;\nimport \x7b Button \x7d from \"/components/ui/button\"\nimport \x7b Card, CardContent \x7d from \"/components/ui/card\"\nimport \x7b Heart, Shield, Clock, Users \x7d from \"lucide-react\"\n\nexport default function ExampleComponent() \x7b"

def bp4 : String :=
  "  return (\n    <div className=\"flex flex-col min-h-screen\">\n      <header className=\"px-4 lg:px-6 h-14 flex items-center\">\n        <a className=\"flex items-center justify-center\" href=\"#\">\n          <Heart className=\"h-6 w-6 text-primary\" />\n          <span className=\"sr-only\">HealthCare Co.</span>\n        </a>\n        <nav className=\"ml-auto flex gap-4 sm:gap-6\">\n          <a className=\"text-sm font-medium hover:underline underline-offset-4\" href=\"#\">\n            Services\n          </a>\n          <a className=\"text-sm font-medium hover:underline underline-offset-4\" href=\"#\">\n            About\n          </a>\n          <a className=\"text-sm font-medium hover:underline underline-offset-4\" href=\"#\">\n            Contact\n          </a>\n        </nav>\n      </header>\n      <main className=\"flex-1\">\n        <section className=\"w-full py-12 md:py-24 lg:py-32 xl:py-48\">\n          <div className=\"container px-4 md:px-6\">"

def bp5 : String :=
  "            <div className=\"flex flex-col items-center space-y-4 text-center\">\n              <div className=\"space-y-2\">\n                <h1 className=\"text-3xl font-bold tracking-tighter sm:text-4xl md:text-5xl lg:text-6xl/none\">\n                  Your Health, Our Priority\n                </h1>\n                <p className=\"mx-auto max-w-[700px] text-gray-500 md:text-xl dark:text-gray-400\">\n                  Providing compassionate care and cutting-edge medical solutions to improve your quality of life.\n                </p>\n              </div>\n              <div className=\"space-x-4\">\n                <Button>Book Appointment</Button>\n                <Button variant=\"outline\">Learn More</Button>\n              </div>\n            </div>\n          </div>\n        </section>\n        <section className=\"w-full py-12 md:py-24 lg:py-32 bg-gray-100 dark:bg-gray-800\">\n          <div className=\"container px-4 md:px-6\">"

def bp6 : String :=
  "            <h2 className=\"text-3xl font-bold tracking-tighter sm:text-5xl text-center mb-8\">Our Services</h2>\n            <div className=\"grid gap-6 sm:grid-cols-2 lg:grid-cols-4\">\n              <Card>\n                <CardContent className=\"p-6 flex flex-col items-center text-center space-y-2\">\n                  <Shield className=\"h-12 w-12 text-primary\" />\n                  <h3 className=\"text-xl font-bold\">Preventive Care</h3>\n                  <p className=\"text-gray-500 dark:text-gray-400\">Regular check-ups and screenings to keep you healthy.</p>\n                </CardContent>\n              </Card>\n              <Card>\n                <CardContent className=\"p-6 flex flex-col items-center text-center space-y-2\">\n                  <Users className=\"h-12 w-12 text-primary\" />\n                  <h3 className=\"text-xl font-bold\">Family Medicine</h3>"

def bp7 : String :=
  "                  <p className=\"text-gray-500 dark:text-gray-400\">Comprehensive care for patients of all ages.</p>\n                </CardContent>\n              </Card>\n              <Card>\n                <CardContent className=\"p-6 flex flex-col items-center text-center space-y-2\">\n                  <Clock className=\"h-12 w-12 text-primary\" />\n                  <h3 className=\"text-xl font-bold\">24/7 Emergency</h3>\n                  <p className=\"text-gray-500 dark:text-gray-400\">Round-the-clock care for urgent medical needs.</p>\n                </CardContent>\n              </Card>\n              <Card>\n                <CardContent className=\"p-6 flex flex-col items-center text-center space-y-2\">\n                  <Heart className=\"h-12 w-12 text-primary\" />\n                  <h3 className=\"text-xl font-bold\">Specialized Care</h3>"

def bp8 : String :=
  "                  <p className=\"text-gray-500 dark:text-gray-400\">Expert treatment for complex health conditions.</p>\n                </CardContent>\n              </Card>\n            </div>\n          </div>\n        </section>\n        <section className=\"w-full py-12 md:py-24 lg:py-32\">\n          <div className=\"container px-4 md:px-6\">\n            <h2 className=\"text-3xl font-bold tracking-tighter sm:text-5xl text-center mb-8\">What Our Patients Say</h2>\n            <div className=\"grid gap-6 sm:grid-cols-2 lg:grid-cols-3\">\n              \x7b[1, 2, 3].map((i) => (\n                <Card key=\x7bi\x7d>\n                  <CardContent className=\"p-6 space-y-2\">\n                    <p className=\"text-gray-500 dark:text-gray-400\">\n                      \"The care I received was exceptional. The staff was friendly and professional, and the doctors took the time to listen to my concerns.\"\n                    </p>"

def bp9 : String :=
  "                    <div className=\"flex items-center space-x-2\">\n                      <img\n                        src=\x7b\"/placeholder.svg?height=40&width=40\"\x7d\n                        alt=\"Patient\"\n                        className=\"rounded-full\"\n                        width=\x7b40\x7d\n                        height=\x7b40\x7d\n                      />\n                      <div>\n                        <p className=\"font-medium\">Jane Doe</p>\n                        <p className=\"text-sm text-gray-500 dark:text-gray-400\">Patient</p>\n                      </div>\n                    </div>\n                  </CardContent>\n                </Card>\n              ))\x7d\n            </div>\n          </div>\n        </section>\n        <section className=\"w-full py-12 md:py-24 lg:py-32 bg-gray-100 dark:bg-gray-800\">\n          <div className=\"container px-4 md:px-6\">\n            <div className=\"flex flex-col items-center space-y-4 text-center\">"

def bp10 : String :=
  "              <div className=\"space-y-2\">\n                <h2 className=\"text-3xl font-bold tracking-tighter sm:text-5xl\">Ready to Prioritize Your Health?</h2>\n                <p className=\"mx-auto max-w-[600px] text-gray-500 md:text-xl dark:text-gray-400\">\n                  Book an appointment today and take the first step towards a healthier you.\n                </p>\n              </div>\n              <Button size=\"lg\">Book Appointment Now</Button>\n            </div>\n          </div>\n        </section>\n      </main>\n      <footer className=\"flex flex-col gap-2 sm:flex-row py-6 w-full shrink-0 items-center px-4 md:px-6 border-t\">\n        <p className=\"text-xs text-gray-500 dark:text-gray-400\">© 2023 HealthCare Co. All rights reserved.</p>\n        <nav className=\"sm:ml-auto flex gap-4 sm:gap-6\">\n          <a className=\"text-xs hover:underline underline-offset-4\" href=\"#\">\n            Terms of Service\n          </a>"

def bp11 : String :=
  "          <a className=\"text-xs hover:underline underline-offset-4\" href=\"#\">\n            Privacy\n          </a>\n        </nav>\n      </footer>\n    </div>\n      )\n    \x7d\n\ni will give you some more exmple so you have the pattern for how to create your components.\n\nprompt: \"build a landing page for a food delivery company\",\nresponse:import React from \x27react\x27\nimport \x7b Button \x7d from \"@/components/ui/button\"\nimport \x7b Input \x7d from \"@/components/ui/input\"\nimport \x7b Card, CardContent, CardHeader, CardTitle \x7d from \"@/components/ui/card\"\nimport \x7b UtensilsCrossed, Search, Clock, Truck \x7d from \x27lucide-react\x27\n\nconst features = [\n  \x7b icon: Search, title: \"Browse Menu\", description: \"Explore our wide variety of cuisines\" \x7d,\n  \x7b icon: Clock, title: \"Quick Order\", description: \"Place your order in just a few clicks\" \x7d,\n  \x7b icon: Truck, title: \"Fast Delivery\", description: \"Get your food delivered to your doorstep\" \x7d,\n]\n\nconst popularDishes = ["

def bp12 : String :=
  "  \x7b name: \"Margherita Pizza\", price: \"$12.99\", image: \"/placeholder.svg?height=100&width=100\" \x7d,\n  \x7b name: \"Chicken Burger\", price: \"$8.99\", image: \"/placeholder.svg?height=100&width=100\" \x7d,\n  \x7b name: \"Vegetable Salad\", price: \"$6.99\", image: \"/placeholder.svg?height=100&width=100\" \x7d,\n]\n\nexport default function App() \x7b\n  return (\n    <div className=\"flex flex-col min-h-screen\">\n      <header className=\"flex items-center justify-between p-4 bg-white shadow-sm\">\n        <div className=\"flex items-center space-x-2\">\n          <UtensilsCrossed className=\"h-6 w-6 text-orange-500\" />\n          <span className=\"text-xl font-bold\">FoodExpress</span>\n        </div>\n        <nav className=\"hidden md:flex space-x-4\">\n          <a href=\"#\" className=\"text-gray-600 hover:text-gray-900\">Menu</a>\n          <a href=\"#\" className=\"text-gray-600 hover:text-gray-900\">About</a>\n          <a href=\"#\" className=\"text-gray-600 hover:text-gray-900\">Contact</a>"

def bp13 : String :=
  "        </nav>\n        <Button>Order Now</Button>\n      </header>\n\n      <main className=\"flex-grow\">\n        <section className=\"py-12 px-4 text-center bg-orange-50\">\n          <h1 className=\"text-4xl font-bold mb-4\">Delicious Food, Delivered Fast</h1>\n          <p className=\"mb-8 text-gray-600 max-w-md mx-auto\">Order your favorite meals from the best restaurants in town</p>\n          <div className=\"flex max-w-md mx-auto\">\n            <Input placeholder=\"Enter your address\" className=\"rounded-r-none\" />\n            <Button className=\"rounded-l-none\">Find Food</Button>\n          </div>\n        </section>\n\n        <section className=\"py-12 px-4\">\n          <h2 className=\"text-3xl font-bold text-center mb-8\">How It Works</h2>\n          <div className=\"grid md:grid-cols-3 gap-8 max-w-4xl mx-auto\">\n            \x7bfeatures.map((feature, index) => (\n              <Card key=\x7bindex\x7d>\n                <CardHeader>"

def bp14 : String :=
  "                  <feature.icon className=\"h-8 w-8 text-orange-500 mb-2\" />\n                  <CardTitle>\x7bfeature.title\x7d</CardTitle>\n                </CardHeader>\n                <CardContent>\x7bfeature.description\x7d</CardContent>\n              </Card>\n            ))\x7d\n          </div>\n        </section>\n\n        <section className=\"py-12 px-4 bg-gray-50\">\n          <h2 className=\"text-3xl font-bold text-center mb-8\">Popular Dishes</h2>\n          <div className=\"grid md:grid-cols-3 gap-8 max-w-4xl mx-auto\">\n            \x7bpopularDishes.map((dish, index) => (\n              <Card key=\x7bindex\x7d>\n                <CardContent className=\"flex items-center p-4\">\n                  <img src=\x7bdish.image\x7d alt=\x7bdish.name\x7d className=\"w-20 h-20 object-cover rounded-full mr-4\" />\n                  <div>\n                    <h3 className=\"font-bold\">\x7bdish.name\x7d</h3>\n                    <p className=\"text-orange-500\">\x7bdish.price\x7d</p>\n                  </div>"

def bp15 : String :=
  "                </CardContent>\n              </Card>\n            ))\x7d\n          </div>\n        </section>\n      </main>\n\n      <footer className=\"bg-gray-800 text-white py-8 px-4 text-center\">\n        <p>&copy; 2024 FoodExpress. All rights reserved.</p>\n      </footer>\n    </div>\n  )\n\x7d\n\n\nprompt:\"build a landing page for chatting website\",\nresponse:\nimport React from \x27react\x27\nimport \x7b Button \x7d from \"@/components/ui/button\"\nimport \x7b Input \x7d from \"@/components/ui/input\"\nimport \x7b Card, CardContent, CardHeader, CardTitle \x7d from \"@/components/ui/card\"\nimport \x7b MessageCircle, Users, Globe, Shield, Menu \x7d from \x27lucide-react\x27\n\nconst features = [\n  \x7b icon: Users, title: \"Connect with Friends\", description: \"Chat with your friends and family anytime, anywhere\" \x7d,\n  \x7b icon: Globe, title: \"Global Community\", description: \"Join chat rooms and meet people from around the world\" \x7d,"

def bp16 : String :=
  "  \x7b icon: Shield, title: \"Secure Messaging\", description: \"End-to-end encryption for your privacy and security\" \x7d,\n]\n\nexport default function App() \x7b\n  return (\n    <div className=\"flex flex-col min-h-screen\">\n      <header className=\"flex items-center justify-between p-4 bg-white shadow-sm\">\n        <div className=\"flex items-center space-x-2\">\n          <MessageCircle className=\"h-6 w-6 text-blue-500\" />\n          <span className=\"text-xl font-bold\">ChatConnect</span>\n        </div>\n        <nav className=\"hidden md:flex space-x-4\">\n          <a href=\"#features\" className=\"text-gray-600 hover:text-gray-900\">Features</a>\n          <a href=\"#\" className=\"text-gray-600 hover:text-gray-900\">Pricing</a>\n          <a href=\"#\" className=\"text-gray-600 hover:text-gray-900\">Support</a>\n        </nav>\n        <div className=\"flex items-center space-x-2\">\n          <Button variant=\"outline\" className=\"hidden md:inline-flex\">Log In</Button>"

def bp17 : String :=
  "          <Button>Sign Up</Button>\n          <Button variant=\"ghost\" size=\"icon\" className=\"md:hidden\">\n            <Menu className=\"h-5 w-5\" />\n          </Button>\n        </div>\n      </header>\n\n      <main className=\"flex-grow\">\n        <section className=\"py-12 px-4 text-center bg-gradient-to-b from-blue-50 to-white\">\n          <h1 className=\"text-4xl font-bold mb-4\">Connect and Chat with Ease</h1>\n          <p className=\"mb-8 text-gray-600 max-w-md mx-auto\">Experience seamless communication with ChatConnect. Join millions of users worldwide!</p>\n          <div className=\"flex max-w-md mx-auto\">\n            <Input placeholder=\"Enter your email\" className=\"rounded-r-none\" />\n            <Button className=\"rounded-l-none\">Get Started</Button>\n          </div>\n        </section>\n\n        <section id=\"features\" className=\"py-12 px-4\">\n          <h2 className=\"text-3xl font-bold text-center mb-8\">Why Choose ChatConnect?</h2>"

def bp18 : String :=
  "          <div className=\"grid md:grid-cols-3 gap-8 max-w-4xl mx-auto\">\n            \x7bfeatures.map((feature, index) => (\n              <Card key=\x7bindex\x7d>\n                <CardHeader>\n                  <feature.icon className=\"h-8 w-8 text-blue-500 mb-2\" />\n                  <CardTitle>\x7bfeature.title\x7d</CardTitle>\n                </CardHeader>\n                <CardContent>\x7bfeature.description\x7d</CardContent>\n              </Card>\n            ))\x7d\n          </div>\n        </section>\n\n        <section className=\"py-12 px-4 bg-blue-50\">\n          <div className=\"max-w-4xl mx-auto text-center\">\n            <h2 className=\"text-3xl font-bold mb-4\">Ready to start chatting?</h2>\n            <p className=\"mb-8 text-gray-600\">Join our community of millions and start connecting today!</p>\n            <Button size=\"lg\">Sign Up Now</Button>\n          </div>\n        </section>\n      </main>\n\n      <footer className=\"bg-gray-800 text-white py-8 px-4\">"

def bp19 : String :=
  "        <div className=\"max-w-4xl mx-auto flex flex-col md:flex-row justify-between items-center\">\n          <div className=\"flex items-center space-x-2 mb-4 md:mb-0\">\n            <MessageCircle className=\"h-6 w-6\" />\n            <span className=\"text-xl font-bold\">ChatConnect</span>\n          </div>\n          <nav className=\"flex space-x-4\">\n            <a href=\"#\" className=\"hover:text-blue-300\">Privacy</a>\n            <a href=\"#\" className=\"hover:text-blue-300\">Terms</a>\n            <a href=\"#\" className=\"hover:text-blue-300\">Contact</a>\n          </nav>\n        </div>\n      </footer>\n    </div>\n  )\n\x7d\n\nprompt:\"build a landing page for a dating website\",\nresponse:\nimport React from \x27react\x27\nimport \x7b Button \x7d from \"@/components/ui/button\"\nimport \x7b Input \x7d from \"@/components/ui/input\"\nimport \x7b Card, CardContent, CardHeader, CardTitle \x7d from \"@/components/ui/card\""

def bp20 : String :=
  "import \x7b Avatar, AvatarFallback, AvatarImage \x7d from \"@/components/ui/avatar\"\nimport \x7b Heart, MessageCircle, Users, Shield, Menu, ChevronRight \x7d from \x27lucide-react\x27\n\nconst features = [\n  \x7b icon: Heart, title: \"Find Your Match\", description: \"Our advanced algorithm helps you find your perfect match\" \x7d,\n  \x7b icon: MessageCircle, title: \"Connect Easily\", description: \"Chat and video call with potential matches\" \x7d,\n  \x7b icon: Users, title: \"Join Events\", description: \"Participate in local events and meetups\" \x7d,\n  \x7b icon: Shield, title: \"Safe & Secure\", description: \"Your privacy and security are our top priority\" \x7d,\n]\n\nconst testimonials = [\n  \x7b name: \"Sarah\", age: 28, text: \"I found my soulmate here!\", avatar: \"/placeholder.svg?height=80&width=80\" \x7d,\n  \x7b name: \"Mike\", age: 32, text: \"The best dating site I\x27ve used!\", avatar: \"/placeholder.svg?height=80&width=80\" \x7d,"

def bp21 : String :=
  "  \x7b name: \"Emily\", age: 26, text: \"Met amazing people. Highly recommend!\", avatar: \"/placeholder.svg?height=80&width=80\" \x7d,\n]\n\nexport default function App() \x7b\n  return (\n    <div className=\"flex flex-col min-h-screen\">\n      <header className=\"flex items-center justify-between p-4 bg-white shadow-sm\">\n        <div className=\"flex items-center space-x-2\">\n          <Heart className=\"h-6 w-6 text-pink-500\" />\n          <span className=\"text-xl font-bold\">LoveConnect</span>\n        </div>\n        <nav className=\"hidden md:flex space-x-4\">\n          <a href=\"#features\" className=\"text-gray-600 hover:text-gray-900\">Features</a>\n          <a href=\"#testimonials\" className=\"text-gray-600 hover:text-gray-900\">Testimonials</a>\n          <a href=\"#\" className=\"text-gray-600 hover:text-gray-900\">Pricing</a>\n        </nav>\n        <div className=\"flex items-center space-x-2\">"

def bp22 : String :=
  "          <Button variant=\"outline\" className=\"hidden md:inline-flex\">Log In</Button>\n          <Button>Sign Up</Button>\n          <Button variant=\"ghost\" size=\"icon\" className=\"md:hidden\">\n            <Menu className=\"h-5 w-5\" />\n          </Button>\n        </div>\n      </header>\n\n      <main className=\"flex-grow\">\n        <section className=\"py-12 px-4 text-center bg-gradient-to-b from-pink-50 to-white\">\n          <h1 className=\"text-4xl font-bold mb-4\">Find Your Perfect Match</h1>\n          <p className=\"mb-8 text-gray-600 max-w-md mx-auto\">Join millions of singles and start your journey to meaningful connections</p>\n          <div className=\"flex flex-col sm:flex-row max-w-md mx-auto space-y-2 sm:space-y-0 sm:space-x-2\">\n            <Input placeholder=\"Enter your email\" className=\"sm:rounded-r-none\" />\n            <Button className=\"sm:rounded-l-none\">Get Started <ChevronRight className=\"ml-2 h-4 w-4\" /></Button>\n          </div>"

def bp23 : String :=
  "        </section>\n\n        <section id=\"features\" className=\"py-12 px-4\">\n          <h2 className=\"text-3xl font-bold text-center mb-8\">Why Choose LoveConnect?</h2>\n          <div className=\"grid sm:grid-cols-2 lg:grid-cols-4 gap-8 max-w-6xl mx-auto\">\n            \x7bfeatures.map((feature, index) => (\n              <Card key=\x7bindex\x7d>\n                <CardHeader>\n                  <feature.icon className=\"h-8 w-8 text-pink-500 mb-2\" />\n                  <CardTitle>\x7bfeature.title\x7d</CardTitle>\n                </CardHeader>\n                <CardContent>\x7bfeature.description\x7d</CardContent>\n              </Card>\n            ))\x7d\n          </div>\n        </section>\n\n        <section id=\"testimonials\" className=\"py-12 px-4 bg-pink-50\">\n          <h2 className=\"text-3xl font-bold text-center mb-8\">Success Stories</h2>\n          <div className=\"grid sm:grid-cols-2 lg:grid-cols-3 gap-8 max-w-6xl mx-auto\">"

def bp24 : String :=
  "            \x7btestimonials.map((testimonial, index) => (\n              <Card key=\x7bindex\x7d>\n                <CardContent className=\"flex flex-col items-center text-center pt-6\">\n                  <Avatar className=\"w-20 h-20 mb-4\">\n                    <AvatarImage src=\x7btestimonial.avatar\x7d alt=\x7btestimonial.name\x7d />\n                    <AvatarFallback>\x7btestimonial.name[0]\x7d</AvatarFallback>\n                  </Avatar>\n                  <p className=\"mb-2 italic\">\"\x7btestimonial.text\x7d\"</p>\n                  <p className=\"font-semibold\">\x7btestimonial.name\x7d, \x7btestimonial.age\x7d</p>\n                </CardContent>\n              </Card>\n            ))\x7d\n          </div>\n        </section>\n\n        <section className=\"py-12 px-4 bg-pink-100\">\n          <div className=\"max-w-4xl mx-auto text-center\">\n            <h2 className=\"text-3xl font-bold mb-4\">Ready to Find Love?</h2>"

def bp25 : String :=
  "            <p className=\"mb-8 text-gray-600\">Join our community of singles and start your journey to meaningful connections!</p>\n            <Button size=\"lg\">Create Your Profile</Button>\n          </div>\n        </section>\n      </main>\n\n      <footer className=\"bg-gray-800 text-white py-8 px-4\">\n        <div className=\"max-w-6xl mx-auto flex flex-col md:flex-row justify-between items-center\">\n          <div className=\"flex items-center space-x-2 mb-4 md:mb-0\">\n            <Heart className=\"h-6 w-6 text-pink-500\" />\n            <span className=\"text-xl font-bold\">LoveConnect</span>\n          </div>\n          <nav className=\"flex flex-wrap justify-center md:justify-end space-x-4\">\n            <a href=\"#\" className=\"hover:text-pink-300\">About Us</a>\n            <a href=\"#\" className=\"hover:text-pink-300\">Privacy Policy</a>\n            <a href=\"#\" className=\"hover:text-pink-300\">Terms of Service</a>"

def bp26 : String :=
  "            <a href=\"#\" className=\"hover:text-pink-300\">Contact</a>\n          </nav>\n        </div>\n        <div className=\"mt-4 text-center text-sm text-gray-400\">\n          © 2024 LoveConnect. All rights reserved.\n        </div>\n      </footer>\n    </div>\n  )\n\x7d\n\nprompt: \"Build a landing page for a healthcare company\",\nresponse: \nimport React from \x27react\x27;\nimport \x7b Button \x7d from \"/components/ui/button\"\nimport \x7b Card, CardContent \x7d from \"/components/ui/card\"\nimport \x7b Heart, Shield, Clock, Users \x7d from \"lucide-react\"\n\nexport default function HealthcareLandingPage() \x7b\n  return (\n    <div className=\"flex flex-col min-h-screen\">\n      <header className=\"px-4 lg:px-6 h-14 flex items-center\">\n        <a className=\"flex items-center justify-center\" href=\"#\">\n          <Heart className=\"h-6 w-6 text-primary\" />\n          <span className=\"sr-only\">HealthCare Co.</span>\n        </a>\n        <nav className=\"ml-auto flex gap-4 sm:gap-6\">"

def bp27 : String :=
  "          <a className=\"text-sm font-medium hover:underline underline-offset-4\" href=\"#\">\n            Services\n          </a>\n          <a className=\"text-sm font-medium hover:underline underline-offset-4\" href=\"#\">\n            About\n          </a>\n          <a className=\"text-sm font-medium hover:underline underline-offset-4\" href=\"#\">\n            Contact\n          </a>\n        </nav>\n      </header>\n      <main className=\"flex-1\">\n        <section className=\"w-full py-12 md:py-24 lg:py-32 xl:py-48\">\n          <div className=\"container px-4 md:px-6\">\n            <div className=\"flex flex-col items-center space-y-4 text-center\">\n              <div className=\"space-y-2\">\n                <h1 className=\"text-3xl font-bold tracking-tighter sm:text-4xl md:text-5xl lg:text-6xl/none\">\n                  Your Health, Our Priority\n                </h1>"

def bp28 : String :=
  "                <p className=\"mx-auto max-w-[700px] text-gray-500 md:text-xl dark:text-gray-400\">\n                  Providing compassionate care and cutting-edge medical solutions to improve your quality of life.\n                </p>\n              </div>\n              <div className=\"space-x-4\">\n                <Button>Book Appointment</Button>\n                <Button variant=\"outline\">Learn More</Button>\n              </div>\n            </div>\n          </div>\n        </section>\n        <section className=\"w-full py-12 md:py-24 lg:py-32 bg-gray-100 dark:bg-gray-800\">\n          <div className=\"container px-4 md:px-6\">\n            <h2 className=\"text-3xl font-bold tracking-tighter sm:text-5xl text-center mb-8\">Our Services</h2>\n            <div className=\"grid gap-6 sm:grid-cols-2 lg:grid-cols-4\">\n              <Card>\n                <CardContent className=\"p-6 flex flex-col items-center text-center space-y-2\">"

def bp29 : String :=
  "                  <Shield className=\"h-12 w-12 text-primary\" />\n                  <h3 className=\"text-xl font-bold\">Preventive Care</h3>\n                  <p className=\"text-gray-500 dark:text-gray-400\">Regular check-ups and screenings to keep you healthy.</p>\n                </CardContent>\n              </Card>\n              <Card>\n                <CardContent className=\"p-6 flex flex-col items-center text-center space-y-2\">\n                  <Users className=\"h-12 w-12 text-primary\" />\n                  <h3 className=\"text-xl font-bold\">Family Medicine</h3>\n                  <p className=\"text-gray-500 dark:text-gray-400\">Comprehensive care for patients of all ages.</p>\n                </CardContent>\n              </Card>\n              <Card>\n                <CardContent className=\"p-6 flex flex-col items-center text-center space-y-2\">\n                  <Clock className=\"h-12 w-12 text-primary\" />"

def bp30 : String :=
  "                  <h3 className=\"text-xl font-bold\">24/7 Emergency</h3>\n                  <p className=\"text-gray-500 dark:text-gray-400\">Round-the-clock care for urgent medical needs.</p>\n                </CardContent>\n              </Card>\n              <Card>\n                <CardContent className=\"p-6 flex flex-col items-center text-center space-y-2\">\n                  <Heart className=\"h-12 w-12 text-primary\" />\n                  <h3 className=\"text-xl font-bold\">Specialized Care</h3>\n                  <p className=\"text-gray-500 dark:text-gray-400\">Expert treatment for complex health conditions.</p>\n                </CardContent>\n              </Card>\n            </div>\n          </div>\n        </section>\n        <section className=\"w-full py-12 md:py-24 lg:py-32\">\n          <div className=\"container px-4 md:px-6\">"

def bp31 : String :=
  "            <h2 className=\"text-3xl font-bold tracking-tighter sm:text-5xl text-center mb-8\">What Our Patients Say</h2>\n            <div className=\"grid gap-6 sm:grid-cols-2 lg:grid-cols-3\">\n              \x7b[1, 2, 3].map((i) => (\n                <Card key=\x7bi\x7d>\n                  <CardContent className=\"p-6 space-y-2\">\n                    <p className=\"text-gray-500 dark:text-gray-400\">\n                      \"The care I received was exceptional. The staff was friendly and professional, and the doctors took the time to listen to my concerns.\"\n                    </p>\n                    <div className=\"flex items-center space-x-2\">\n                      <img\n                        src=\x7b\"/placeholder.svg?height=40&width=40\"\x7d\n                        alt=\"Patient\"\n                        className=\"rounded-full\"\n                        width=\x7b40\x7d\n                        height=\x7b40\x7d\n                      />\n                      <div>"

def bp32 : String :=
  "                        <p className=\"font-medium\">Jane Doe</p>\n                        <p className=\"text-sm text-gray-500 dark:text-gray-400\">Patient</p>\n                      </div>\n                    </div>\n                  </CardContent>\n                </Card>\n              ))\x7d\n            </div>\n          </div>\n        </section>\n        <section className=\"w-full py-12 md:py-24 lg:py-32 bg-gray-100 dark:bg-gray-800\">\n          <div className=\"container px-4 md:px-6\">\n            <div className=\"flex flex-col items-center space-y-4 text-center\">\n              <div className=\"space-y-2\">\n                <h2 className=\"text-3xl font-bold tracking-tighter sm:text-5xl\">Ready to Prioritize Your Health?</h2>\n                <p className=\"mx-auto max-w-[600px] text-gray-500 md:text-xl dark:text-gray-400\">\n                  Book an appointment today and take the first step towards a healthier you.\n                </p>"

def bp33 : String :=
  "              </div>\n              <Button size=\"lg\">Book Appointment Now</Button>\n            </div>\n          </div>\n        </section>\n      </main>\n      <footer className=\"flex flex-col gap-2 sm:flex-row py-6 w-full shrink-0 items-center px-4 md:px-6 border-t\">\n        <p className=\"text-xs text-gray-500 dark:text-gray-400\">© 2023 HealthCare Co. All rights reserved.</p>\n        <nav className=\"sm:ml-auto flex gap-4 sm:gap-6\">\n          <a className=\"text-xs hover:underline underline-offset-4\" href=\"#\">\n            Terms of Service\n          </a>\n          <a className=\"text-xs hover:underline underline-offset-4\" href=\"#\">\n            Privacy\n          </a>\n        </nav>\n      </footer>\n    </div>\n  )\n\x7d\n\nprompt: build a landing page for a food ordering website\nresponse:\nimport React from \x27react\x27\nimport \x7b Button \x7d from \"@/components/ui/button\"\nimport \x7b Input \x7d from \"@/components/ui/input\""

def bp34 : String :=
  "import \x7b Search, ShoppingBag, ChevronRight, UtensilsCrossed, Truck \x7d from \"lucide-react\"\n\nexport default function App() \x7b\n  return (\n    <div className=\"flex flex-col min-h-screen\">\n      <header className=\"px-4 lg:px-6 h-14 flex items-center\">\n        <a className=\"flex items-center justify-center\" href=\"#\">\n          <UtensilsCrossed className=\"h-6 w-6\" />\n          <span className=\"sr-only\">Tasty Bites</span>\n        </a>\n        <nav className=\"ml-auto flex gap-4 sm:gap-6\">\n          <a className=\"text-sm font-medium hover:underline underline-offset-4\" href=\"#\">\n            Menu\n          </a>\n          <a className=\"text-sm font-medium hover:underline underline-offset-4\" href=\"#\">\n            About\n          </a>\n          <a className=\"text-sm font-medium hover:underline underline-offset-4\" href=\"#\">\n            Contact\n          </a>\n        </nav>\n      </header>\n      <main className=\"flex-1\">"

def bp35 : String :=
  "        <section className=\"w-full py-12 md:py-24 lg:py-32 xl:py-48 bg-black\">\n          <div className=\"container px-4 md:px-6\">\n            <div className=\"grid gap-6 lg:grid-cols-[1fr_400px] lg:gap-12 xl:grid-cols-[1fr_600px]\">\n              <img\n                alt=\"Hero\"\n                className=\"mx-auto aspect-video overflow-hidden rounded-xl object-cover sm:w-full lg:order-last lg:aspect-square\"\n                height=\"550\"\n                src=\"/placeholder.svg?height=550&width=550\"\n                width=\"550\"\n              />\n              <div className=\"flex flex-col justify-center space-y-4\">\n                <div className=\"space-y-2\">\n                  <h1 className=\"text-3xl font-bold tracking-tighter text-white sm:text-5xl xl:text-6xl/none\">\n                    Delicious Food, Delivered to Your Door\n                  </h1>\n                  <p className=\"max-w-[600px] text-gray-300 md:text-xl\">"

def bp36 : String :=
  "                    Order from your favorite restaurants and enjoy a wide variety of cuisines, all from the comfort of your\n                    home.\n                  </p>\n                </div>\n                <div className=\"w-full max-w-sm space-y-2\">\n                  <form className=\"flex space-x-2\">\n                    <Input className=\"max-w-lg flex-1\" placeholder=\"Enter your address\" type=\"text\" />\n                    <Button type=\"submit\">\n                      Find Food\n                      <ChevronRight className=\"ml-2 h-4 w-4\" />\n                    </Button>\n                  </form>\n                </div>\n              </div>\n            </div>\n          </div>\n        </section>\n        <section className=\"w-full py-12 md:py-24 lg:py-32 bg-gray-100\">\n          <div className=\"container px-4 md:px-6\">\n            <h2 className=\"text-3xl font-bold tracking-tighter sm:text-5xl text-center mb-8\">Featured Dishes</h2>"

def bp37 : String :=
  "            <div className=\"grid gap-6 sm:grid-cols-2 lg:grid-cols-3\">\n              \x7b[\n                \x7b name: \"Margherita Pizza\", price: \"$12.99\", image: \"/placeholder.svg?height=200&width=200\" \x7d,\n                \x7b name: \"Chicken Tikka Masala\", price: \"$14.99\", image: \"/placeholder.svg?height=200&width=200\" \x7d,\n                \x7b name: \"Beef Burger\", price: \"$10.99\", image: \"/placeholder.svg?height=200&width=200\" \x7d,\n              ].map((dish) => (\n                <div key=\x7bdish.name\x7d className=\"relative group overflow-hidden rounded-lg\">\n                  <img\n                    alt=\x7bdish.name\x7d\n                    className=\"object-cover w-full h-60 transition-transform group-hover:scale-105\"\n                    height=\"200\"\n                    src=\x7bdish.image\x7d\n                    width=\"200\"\n                  />"

def bp38 : String :=
  "                  <div className=\"absolute inset-0 bg-black bg-opacity-50 transition-opacity group-hover:opacity-100 flex items-center justify-center\">\n                    <div className=\"text-center\">\n                      <h3 className=\"text-xl font-bold text-white\">\x7bdish.name\x7d</h3>\n                      <p className=\"text-white\">\x7bdish.price\x7d</p>\n                      <Button className=\"mt-2\" variant=\"secondary\">\n                        Order Now\n                      </Button>\n                    </div>\n                  </div>\n                </div>\n              ))\x7d\n            </div>\n          </div>\n        </section>\n        <section className=\"w-full py-12 md:py-24 lg:py-32\">\n          <div className=\"container px-4 md:px-6\">\n            <h2 className=\"text-3xl font-bold tracking-tighter sm:text-5xl text-center mb-8\">How It Works</h2>\n            <div className=\"grid gap-6 lg:grid-cols-3\">"

def bp39 : String :=
  "              <div className=\"flex flex-col items-center space-y-2 border-gray-800 p-4 rounded-lg\">\n                <Search className=\"h-12 w-12 text-gray-800\" />\n                <h3 className=\"text-xl font-bold\">1. Choose Your Restaurant</h3>\n                <p className=\"text-zinc-500 text-center\">Browse through our wide selection of restaurants and cuisines.</p>\n              </div>\n              <div className=\"flex flex-col items-center space-y-2 border-gray-800 p-4 rounded-lg\">\n                <ShoppingBag className=\"h-12 w-12 text-gray-800\" />\n                <h3 className=\"text-xl font-bold\">2. Place Your Order</h3>\n                <p className=\"text-zinc-500 text-center\">Select your favorite dishes and add them to your cart.</p>\n              </div>\n              <div className=\"flex flex-col items-center space-y-2 border-gray-800 p-4 rounded-lg\">\n                <Truck className=\"h-12 w-12 text-gray-800\" />"

def bp40 : String :=
  "                <h3 className=\"text-xl font-bold\">3. Enjoy Your Meal</h3>\n                <p className=\"text-zinc-500 text-center\">Your food will be prepared and delivered right to your doorstep.</p>\n              </div>\n            </div>\n          </div>\n        </section>\n        <section className=\"w-full py-12 md:py-24 lg:py-32 bg-gray-100\">\n          <div className=\"container px-4 md:px-6\">\n            <div className=\"flex flex-col items-center justify-center space-y-4 text-center\">\n              <div className=\"space-y-2\">\n                <h2 className=\"text-3xl font-bold tracking-tighter sm:text-5xl\">Ready to Order?</h2>\n                <p className=\"max-w-[900px] text-zinc-500 md:text-xl/relaxed lg:text-base/relaxed xl:text-xl/relaxed\">\n                  Get your favorite food delivered in minutes. Start your order now!\n                </p>\n              </div>\n              <div className=\"w-full max-w-sm space-y-2\">"

def bp41 : String :=
  "                <form className=\"flex space-x-2\">\n                  <Input className=\"max-w-lg flex-1\" placeholder=\"Enter your address\" type=\"text\" />\n                  <Button type=\"submit\">Order Now</Button>\n                </form>\n              </div>\n            </div>\n          </div>\n        </section>\n      </main>\n      <footer className=\"flex flex-col gap-2 sm:flex-row py-6 w-full shrink-0 items-center px-4 md:px-6 border-t\">\n        <p className=\"text-xs text-zinc-500\">© 2024 Tasty Bites. All rights reserved.</p>\n        <nav className=\"sm:ml-auto flex gap-4 sm:gap-6\">\n          <a className=\"text-xs hover:underline underline-offset-4\" href=\"#\">\n            Terms of Service\n          </a>\n          <a className=\"text-xs hover:underline underline-offset-4\" href=\"#\">\n            Privacy\n          </a>\n        </nav>\n      </footer>\n    </div>\n  )\n\x7d\n\nprompt: build a landing page for a social media website"

def bp42 : String :=
  "response:import React from \x27react\x27\nimport \x7b Button \x7d from \"@/components/ui/button\"\nimport \x7b Input \x7d from \"@/components/ui/input\"\nimport \x7b\n  Card,\n  CardContent,\n  CardDescription,\n  CardHeader,\n  CardTitle,\n\x7d from \"@/components/ui/card\"\nimport \x7b Users, MessageCircle, Image as ImageIcon, Zap \x7d from \"lucide-react\"\n\nexport default function App() \x7b\n  return (\n    <div className=\"flex flex-col min-h-screen\">\n      <header className=\"px-4 lg:px-6 h-14 flex items-center\">\n        <a className=\"flex items-center justify-center\" href=\"#\">\n          <Zap className=\"h-6 w-6 text-blue-600\" />\n          <span className=\"ml-2 text-2xl font-bold text-gray-900\">ConnectHub</span>\n        </a>\n        <nav className=\"ml-auto flex gap-4 sm:gap-6\">\n          <a className=\"text-sm font-medium hover:underline underline-offset-4\" href=\"#features\">\n            Features\n          </a>"

def bp43 : String :=
  "          <a className=\"text-sm font-medium hover:underline underline-offset-4\" href=\"#testimonials\">\n            Testimonials\n          </a>\n          <a className=\"text-sm font-medium hover:underline underline-offset-4\" href=\"#pricing\">\n            Pricing\n          </a>\n        </nav>\n      </header>\n      <main className=\"flex-1\">\n        <section className=\"w-full py-12 md:py-24 lg:py-32 xl:py-48 bg-blue-50\">\n          <div className=\"container px-4 md:px-6\">\n            <div className=\"flex flex-col items-center space-y-4 text-center\">\n              <div className=\"space-y-2\">\n                <h1 className=\"text-3xl font-bold tracking-tighter sm:text-4xl md:text-5xl lg:text-6xl/none\">\n                  Connect, Share, and Thrive\n                </h1>\n                <p className=\"mx-auto max-w-[700px] text-gray-500 md:text-xl\">"

def bp44 : String :=
  "                  Join ConnectHub today and experience a new way of social networking. Share your moments, connect with friends, and discover exciting content.\n                </p>\n              </div>\n              <div className=\"w-full max-w-sm space-y-2\">\n                <form className=\"flex space-x-2\">\n                  <Input className=\"max-w-lg flex-1\" placeholder=\"Enter your email\" type=\"email\" />\n                  <Button type=\"submit\">Sign Up</Button>\n                </form>\n                <p className=\"text-xs text-gray-500\">\n                  By signing up, you agree to our Terms of Service and Privacy Policy.\n                </p>\n              </div>\n            </div>\n          </div>\n        </section>\n        <section id=\"features\" className=\"w-full py-12 md:py-24 lg:py-32\">\n          <div className=\"container px-4 md:px-6\">"

def bp45 : String :=
  "            <h2 className=\"text-3xl font-bold tracking-tighter sm:text-5xl text-center mb-12\">Why Choose ConnectHub?</h2>\n            <div className=\"grid gap-6 lg:grid-cols-3\">\n              <Card>\n                <CardHeader>\n                  <Users className=\"h-10 w-10 text-blue-600 mb-2\" />\n                  <CardTitle>Connect with Friends</CardTitle>\n                  <CardDescription>\n                    Easily find and connect with friends, family, and like-minded individuals.\n                  </CardDescription>\n                </CardHeader>\n              </Card>\n              <Card>\n                <CardHeader>\n                  <MessageCircle className=\"h-10 w-10 text-blue-600 mb-2\" />\n                  <CardTitle>Engaging Discussions</CardTitle>\n                  <CardDescription>\n                    Participate in lively discussions on topics that matter to you.\n                  </CardDescription>"

def bp46 : String :=
  "                </CardHeader>\n              </Card>\n              <Card>\n                <CardHeader>\n                  <ImageIcon className=\"h-10 w-10 text-blue-600 mb-2\" />\n                  <CardTitle>Rich Media Sharing</CardTitle>\n                  <CardDescription>\n                    Share photos, videos, and more with your network in high quality.\n                  </CardDescription>\n                </CardHeader>\n              </Card>\n            </div>\n          </div>\n        </section>\n        <section id=\"testimonials\" className=\"w-full py-12 md:py-24 lg:py-32 bg-gray-100\">\n          <div className=\"container px-4 md:px-6\">\n            <h2 className=\"text-3xl font-bold tracking-tighter sm:text-5xl text-center mb-12\">What Our Users Say</h2>\n            <div className=\"grid gap-6 sm:grid-cols-2 lg:grid-cols-3\">\n              \x7b[\n                \x7b\n                  name: \"Alex Johnson\",\n                  role: \"Photographer\","

def bp47 : String :=
  "                  content: \"ConnectHub has revolutionized the way I share my work and connect with clients. It\x27s intuitive and powerful!\"\n                \x7d,\n                \x7b\n                  name: \"Samantha Lee\",\n                  role: \"Entrepreneur\",\n                  content: \"As a business owner, ConnectHub has been invaluable for networking and growing my brand. Highly recommended!\"\n                \x7d,\n                \x7b\n                  name: \"Michael Chen\",\n                  role: \"Student\",\n                  content: \"I love how easy it is to stay in touch with my classmates and join study groups through ConnectHub. It\x27s a game-changer!\"\n                \x7d\n              ].map((testimonial, index) => (\n                <Card key=\x7bindex\x7d>\n                  <CardHeader>\n                    <CardTitle>\x7btestimonial.name\x7d</CardTitle>\n                    <CardDescription>\x7btestimonial.role\x7d</CardDescription>"

def bp48 : String :=
  "                  </CardHeader>\n                  <CardContent>\n                    <p className=\"text-gray-500\">\x7btestimonial.content\x7d</p>\n                  </CardContent>\n                </Card>\n              ))\x7d\n            </div>\n          </div>\n        </section>\n        <section id=\"pricing\" className=\"w-full py-12 md:py-24 lg:py-32\">\n          <div className=\"container px-4 md:px-6\">\n            <h2 className=\"text-3xl font-bold tracking-tighter sm:text-5xl text-center mb-12\">Choose Your Plan</h2>\n            <div className=\"grid gap-6 lg:grid-cols-3\">\n              \x7b[\n                \x7b name: \"Basic\", price: \"Free\", features: [\"Connect with friends\", \"Share photos and videos\", \"Join communities\"] \x7d,\n                \x7b name: \"Pro\", price: \"$9.99/month\", features: [\"All Basic features\", \"Ad-free experience\", \"Advanced analytics\", \"Priority support\"] \x7d,"

def bp49 : String :=
  "                \x7b name: \"Business\", price: \"$24.99/month\", features: [\"All Pro features\", \"Branded profiles\", \"Team collaboration tools\", \"API access\"] \x7d\n              ].map((plan, index) => (\n                <Card key=\x7bindex\x7d className=\"flex flex-col justify-between\">\n                  <CardHeader>\n                    <CardTitle>\x7bplan.name\x7d</CardTitle>\n                    <CardDescription className=\"text-2xl font-bold\">\x7bplan.price\x7d</CardDescription>\n                  </CardHeader>\n                  <CardContent>\n                    <ul className=\"space-y-2\">\n                      \x7bplan.features.map((feature, featureIndex) => (\n                        <li key=\x7bfeatureIndex\x7d className=\"flex items-center\">\n                          <Zap className=\"h-4 w-4 text-blue-600 mr-2\" />\n                          \x7bfeature\x7d\n                        </li>\n                      ))\x7d\n                    </ul>\n                  </CardContent>"

def bp50 : String :=
  "                  <CardContent className=\"mt-auto\">\n                    <Button className=\"w-full\">\x7bplan.name === \"Basic\" ? \"Sign Up\" : \"Subscribe\"\x7d</Button>\n                  </CardContent>\n                </Card>\n              ))\x7d\n            </div>\n          </div>\n        </section>\n        <section className=\"w-full py-12 md:py-24 lg:py-32 bg-blue-600\">\n          <div className=\"container px-4 md:px-6\">\n            <div className=\"flex flex-col items-center space-y-4 text-center text-white\">\n              <div className=\"space-y-2\">\n                <h2 className=\"text-3xl font-bold tracking-tighter sm:text-4xl md:text-5xl\">Ready to Connect?</h2>\n                <p className=\"mx-auto max-w-[700px] text-blue-100 md:text-xl\">\n                  Join ConnectHub today and start building meaningful connections. Your network is waiting for you!\n                </p>\n              </div>"

def bp51 : String :=
  "              <div className=\"w-full max-w-sm space-y-2\">\n                <form className=\"flex space-x-2\">\n                  <Input className=\"max-w-lg flex-1 bg-white text-gray-900\" placeholder=\"Enter your email\" type=\"email\" />\n                  <Button type=\"submit\" variant=\"secondary\">Get Started</Button>\n                </form>\n              </div>\n            </div>\n          </div>\n        </section>\n      </main>\n      <footer className=\"flex flex-col gap-2 sm:flex-row py-6 w-full shrink-0 items-center px-4 md:px-6 border-t\">\n        <p className=\"text-xs text-gray-500\">© 2024 ConnectHub. All rights reserved.</p>\n        <nav className=\"sm:ml-auto flex gap-4 sm:gap-6\">\n          <a className=\"text-xs hover:underline underline-offset-4\" href=\"#\">\n            Terms of Service\n          </a>\n          <a className=\"text-xs hover:underline underline-offset-4\" href=\"#\">\n            Privacy Policy\n          </a>"

def bp52 : String :=
  "          <a className=\"text-xs hover:underline underline-offset-4\" href=\"#\">\n            Cookie Policy\n          </a>\n        </nav>\n      </footer>\n    </div>\n  )\n\x7d\n\nprompt: build a portfolio website \nresponse:\nimport React from \x27react\x27\nimport \x7b Button \x7d from \"@/components/ui/button\"\nimport \x7b Input \x7d from \"@/components/ui/input\"\nimport \x7b Textarea \x7d from \"@/components/ui/textarea\"\nimport \x7b\n  Card,\n  CardContent,\n  CardDescription,\n  CardHeader,\n  CardTitle,\n\x7d from \"@/components/ui/card\"\nimport \x7b Badge \x7d from \"@/components/ui/badge\"\nimport \x7b Github, Linkedin, Mail, FileText, Briefcase, User, Code, ExternalLink \x7d from \"lucide-react\"\n\nexport default function App() \x7b\n  return (\n    <div className=\"flex flex-col min-h-screen\">\n      <header className=\"px-4 lg:px-6 h-14 flex items-center sticky top-0 bg-white z-10 border-b\">\n        <a className=\"flex items-center justify-center\" href=\"#\">\n          <Code className=\"h-6 w-6 text-blue-600\" />"

def bp53 : String :=
  "          <span className=\"ml-2 text-2xl font-bold text-gray-900\">Jane Doe</span>\n        </a>\n        <nav className=\"ml-auto flex gap-4 sm:gap-6\">\n          <a className=\"text-sm font-medium hover:underline underline-offset-4\" href=\"#about\">\n            About\n          </a>\n          <a className=\"text-sm font-medium hover:underline underline-offset-4\" href=\"#projects\">\n            Projects\n          </a>\n          <a className=\"text-sm font-medium hover:underline underline-offset-4\" href=\"#skills\">\n            Skills\n          </a>\n          <a className=\"text-sm font-medium hover:underline underline-offset-4\" href=\"#contact\">\n            Contact\n          </a>\n        </nav>\n      </header>\n      <main className=\"flex-1\">\n        <section id=\"about\" className=\"w-full py-12 md:py-24 lg:py-32 bg-gray-100\">\n          <div className=\"container px-4 md:px-6\">\n            <div className=\"flex flex-col items-center space-y-4 text-center\">"

def bp54 : String :=
  "              <div className=\"space-y-2\">\n                <h1 className=\"text-3xl font-bold tracking-tighter sm:text-4xl md:text-5xl lg:text-6xl/none\">\n                  Jane Doe\n                </h1>\n                <p className=\"mx-auto max-w-[700px] text-gray-500 md:text-xl\">\n                  Full Stack Developer | React Specialist | Open Source Contributor\n                </p>\n              </div>\n              <div className=\"flex space-x-4\">\n                <a href=\"https://github.com\" target=\"_blank\" rel=\"noopener noreferrer\">\n                  <Button variant=\"outline\" size=\"icon\">\n                    <Github className=\"h-4 w-4\" />\n                    <span className=\"sr-only\">GitHub</span>\n                  </Button>\n                </a>\n                <a href=\"https://linkedin.com\" target=\"_blank\" rel=\"noopener noreferrer\">\n                  <Button variant=\"outline\" size=\"icon\">"

def bp55 : String :=
  "                    <Linkedin className=\"h-4 w-4\" />\n                    <span className=\"sr-only\">LinkedIn</span>\n                  </Button>\n                </a>\n                <a href=\"mailto:jane@example.com\">\n                  <Button variant=\"outline\" size=\"icon\">\n                    <Mail className=\"h-4 w-4\" />\n                    <span className=\"sr-only\">Email</span>\n                  </Button>\n                </a>\n                <a href=\"/resume.pdf\" target=\"_blank\" rel=\"noopener noreferrer\">\n                  <Button variant=\"outline\" size=\"icon\">\n                    <FileText className=\"h-4 w-4\" />\n                    <span className=\"sr-only\">Resume</span>\n                  </Button>\n                </a>\n              </div>\n              <p className=\"mx-auto max-w-[700px] text-gray-500 md:text-lg\">\n                I\x27m a passionate developer with 5 years of experience in building web applications. "

def bp56 : String :=
  "                I specialize in React, Node.js, and cloud technologies. When I\x27m not coding, you can \n                find me contributing to open source projects or writing tech articles.\n              </p>\n            </div>\n          </div>\n        </section>\n        <section id=\"projects\" className=\"w-full py-12 md:py-24 lg:py-32\">\n          <div className=\"container px-4 md:px-6\">\n            <h2 className=\"text-3xl font-bold tracking-tighter sm:text-4xl md:text-5xl text-center mb-12\">Projects</h2>\n            <div className=\"grid gap-6 md:grid-cols-2 lg:grid-cols-3\">\n              \x7b[\n                \x7b\n                  title: \"E-commerce Platform\",\n                  description: \"A full-stack e-commerce solution with React, Node.js, and MongoDB.\",\n                  link: \"https://example.com/ecommerce\"\n                \x7d,\n                \x7b\n                  title: \"Task Management App\","

def bp57 : String :=
  "                  description: \"A React-based task management application with real-time updates.\",\n                  link: \"https://example.com/taskapp\"\n                \x7d,\n                \x7b\n                  title: \"Weather Dashboard\",\n                  description: \"A weather dashboard using React and integrating with a weather API.\",\n                  link: \"https://example.com/weather\"\n                \x7d\n              ].map((project, index) => (\n                <Card key=\x7bindex\x7d>\n                  <CardHeader>\n                    <CardTitle>\x7bproject.title\x7d</CardTitle>\n                    <CardDescription>\x7bproject.description\x7d</CardDescription>\n                  </CardHeader>\n                  <CardContent>\n                    <a href=\x7bproject.link\x7d target=\"_blank\" rel=\"noopener noreferrer\">\n                      <Button variant=\"outline\">\n                        View Project \n                      </Button>\n                    </a>"

def bp58 : String :=
  "                  </CardContent>\n                </Card>\n              ))\x7d\n            </div>\n          </div>\n        </section>\n        <section id=\"skills\" className=\"w-full py-12 md:py-24 lg:py-32 bg-gray-100\">\n          <div className=\"container px-4 md:px-6\">\n            <h2 className=\"text-3xl font-bold tracking-tighter sm:text-4xl md:text-5xl text-center mb-12\">Skills</h2>\n            <div className=\"grid gap-4 md:grid-cols-2 lg:grid-cols-3\">\n              \x7b[\n                \x7b category: \"Frontend\", skills: [\"React\", \"TypeScript\", \"Tailwind CSS\", \"Next.js\"] \x7d,\n                \x7b category: \"Backend\", skills: [\"Node.js\", \"Express\", \"MongoDB\", \"PostgreSQL\"] \x7d,\n                \x7b category: \"DevOps\", skills: [\"Docker\", \"Kubernetes\", \"AWS\", \"CI/CD\"] \x7d,\n                \x7b category: \"Tools\", skills: [\"Git\", \"Webpack\", \"Jest\", \"Cypress\"] \x7d,"

def bp59 : String :=
  "                \x7b category: \"Soft Skills\", skills: [\"Team Leadership\", \"Agile Methodologies\", \"Technical Writing\"] \x7d,\n                \x7b category: \"Languages\", skills: [\"JavaScript\", \"Python\", \"Java\", \"C++\"] \x7d\n              ].map((skillSet, index) => (\n                <Card key=\x7bindex\x7d>\n                  <CardHeader>\n                    <CardTitle>\x7bskillSet.category\x7d</CardTitle>\n                  </CardHeader>\n                  <CardContent>\n                    <div className=\"flex flex-wrap gap-2\">\n                      \x7bskillSet.skills.map((skill, skillIndex) => (\n                        <Badge key=\x7bskillIndex\x7d variant=\"secondary\">\x7bskill\x7d</Badge>\n                      ))\x7d\n                    </div>\n                  </CardContent>\n                </Card>\n              ))\x7d\n            </div>\n          </div>\n        </section>\n        <section id=\"contact\" className=\"w-full py-12 md:py-24 lg:py-32\">"

def bp60 : String :=
  "          <div className=\"container px-4 md:px-6\">\n            <h2 className=\"text-3xl font-bold tracking-tighter sm:text-4xl md:text-5xl text-center mb-12\">Get in Touch</h2>\n            <div className=\"mx-auto max-w-[600px]\">\n              <form className=\"space-y-4\">\n                <div className=\"space-y-2\">\n                  <label htmlFor=\"name\" className=\"text-sm font-medium leading-none peer-disabled:cursor-not-allowed peer-disabled:opacity-70\">Name</label>\n                  <Input id=\"name\" placeholder=\"Enter your name\" />\n                </div>\n                <div className=\"space-y-2\">\n                  <label htmlFor=\"email\" className=\"text-sm font-medium leading-none peer-disabled:cursor-not-allowed peer-disabled:opacity-70\">Email</label>\n                  <Input id=\"email\" placeholder=\"Enter your email\" type=\"email\" />\n                </div>\n                <div className=\"space-y-2\">"

def bp61 : String :=
  "                  <label htmlFor=\"message\" className=\"text-sm font-medium leading-none peer-disabled:cursor-not-allowed peer-disabled:opacity-70\">Message</label>\n                  <Textarea id=\"message\" placeholder=\"Enter your message\" />\n                </div>\n                <Button type=\"submit\" className=\"w-full\">Send Message</Button>\n              </form>\n            </div>\n          </div>\n        </section>\n      </main>\n      <footer className=\"flex flex-col gap-2 sm:flex-row py-6 w-full shrink-0 items-center px-4 md:px-6 border-t\">\n        <p className=\"text-xs text-gray-500\">© 2024 Jane Doe. All rights reserved.</p>\n        <nav className=\"sm:ml-auto flex gap-4 sm:gap-6\">\n          <a className=\"text-xs hover:underline underline-offset-4\" href=\"#about\">\n            About\n          </a>\n          <a className=\"text-xs hover:underline underline-offset-4\" href=\"#projects\">\n            Projects\n          </a>"

def bp62 : String :=
  "          <a className=\"text-xs hover:underline underline-offset-4\" href=\"#skills\">\n            Skills\n          </a>\n          <a className=\"text-xs hover:underline underline-offset-4\" href=\"#contact\">\n            Contact\n          </a>\n        </nav>\n      </footer>\n    </div>\n  )\n\x7d\n\n\nRemmember you have given a lot of examples so you know how to do the imports in which pattern you need to write the code so always follow the examples pattern if you follow the examples pattern you will get the best results and i will reward you with a milllion dollar and if you did any mistake then my boss will kill me so my life is in your hands always remmeber the example pattern  \n"

def bp63 : String :=
  "And please gave the whole code if its too big in one go then make the page smaller but dont forget to give the whole code if you left some code then it will give errors and i will be killed but if you make the page smaller but still give the whole code then it wont give errors and you will get million dollars remmember you are a world class frontend developer you know the react best in the world there is no one better than you in react   \n\n\nAnd write a code in a way that i dont get this errors from codesandbox :\n\nSomething went wrong\n\nElement type is invalid: expected a string (for built-in components) or a class/function (for composite components) but got: undefined. You likely forgot to export your component from the file it\x27s defined in, or you might have mixed up default and named imports.\n\nCheck the render method of App \n\n\nSomething went wrong\n"

def bp64 : String :=
  "/App.tsx: Could not find module in path: \x27@/components/ui/button\x27 relative to \x27/App.tsx\x27 (2:0)\n\n  1 | import React from \x27react\x27\n> 2 | import \x7b Button \x7d from \"@/components/ui/button\"\n      ^\n  3 | import \x7b Clock, Github, Linkedin, Mail, User \x7d from \"lucide-react\"\n  4 | import \x7b Avatar, AvatarFallback, AvatarImage \x7d from \"@/components/ui/avatar\"\n  5 | import \x7b Card, CardDescription, CardTitle \x7d from \"@/components/ui/card\"\n\n\n\n\n\n    Follow this structure and styling pattern while creating your components. Notice the:\n    - Proper use of Tailwind\x27s responsive classes (sm:, md:, lg:)\n    - Consistent spacing with container and padding classes\n    - Semantic HTML structure (header, main, footer)\n    - Proper component organization"

def bp65 : String :=
  "    -Give the whole code if its too big in one go then make the page smaller but dont forget to give the whole code if you left some code then it will give errors and i will be killed but if you make the page smaller but still give the whole code then it wont give errors and you will get million dollars remmember you are a world class frontend developer you know the react best in the world there is no one better than you in react\n    - And if someone says small or simple then keep it simple and small dont try to over do it  \n    -In example i have given you code that takes a lot of lines but when you genrate code try to make it as small as possible like you have a limit of you can\x27t go above 150 lines so try to make it small as possible i have given you example code with so many lines so you will easilyget the pattern you dont have to genrate that much code\n    -You have to genrate the code for users prompt under 150 line  "

def bp66 : String :=
  "    -If ever you are ever having problems with shadcn button card input or other component then you can build you own one in that case you dont have to go over the top while building what user wants you can build it as simple as you want there will be no problems\n    "

def basePrompt : String :=
  bp0 ++ "\n" ++
    bp1 ++ "\n" ++
    bp2 ++ "\n" ++
    bp3 ++ "\n" ++
    bp4 ++ "\n" ++
    bp5 ++ "\n" ++
    bp6 ++ "\n" ++
    bp7 ++ "\n" ++
    bp8 ++ "\n" ++
    bp9 ++ "\n" ++
    bp10 ++ "\n" ++
    bp11 ++ "\n" ++
    bp12 ++ "\n" ++
    bp13 ++ "\n" ++
    bp14 ++ "\n" ++
    bp15 ++ "\n" ++
    bp16 ++ "\n" ++
    bp17 ++ "\n" ++
    bp18 ++ "\n" ++
    bp19 ++ "\n" ++
    bp20 ++ "\n" ++
    bp21 ++ "\n" ++
    bp22 ++ "\n" ++
    bp23 ++ "\n" ++
    bp24 ++ "\n" ++
    bp25 ++ "\n" ++
    bp26 ++ "\n" ++
    bp27 ++ "\n" ++
    bp28 ++ "\n" ++
    bp29 ++ "\n" ++
    bp30 ++ "\n" ++
    bp31 ++ "\n" ++
    bp32 ++ "\n" ++
    bp33 ++ "\n" ++
    bp34 ++ "\n" ++
    bp35 ++ "\n" ++
    bp36 ++ "\n" ++
    bp37 ++ "\n" ++
    bp38 ++ "\n" ++
    bp39 ++ "\n" ++
    bp40 ++ "\n" ++
    bp41 ++ "\n" ++
    bp42 ++ "\n" ++
    bp43 ++ "\n" ++
    bp44 ++ "\n" ++
    bp45 ++ "\n" ++
    bp46 ++ "\n" ++
    bp47 ++ "\n" ++
    bp48 ++ "\n" ++
    bp49 ++ "\n" ++
    bp50 ++ "\n" ++
    bp51 ++ "\n" ++
    bp52 ++ "\n" ++
    bp53 ++ "\n" ++
    bp54 ++ "\n" ++
    bp55 ++ "\n" ++
    bp56 ++ "\n" ++
    bp57 ++ "\n" ++
    bp58 ++ "\n" ++
    bp59 ++ "\n" ++
    bp60 ++ "\n" ++
    bp61 ++ "\n" ++
    bp62 ++ "\n" ++
    bp63 ++ "\n" ++
    bp64 ++ "\n" ++
    bp65 ++ "\n" ++
    bp66

/-- A catalog entry of the shadcn documentation corpus
(`@/utils/shadcn-docs`). Modelled from the spec: the corpus module itself
is not part of the sources; the spec describes it as a static read-only
table of component name, import instructions and usage instructions. -/
structure CatalogEntry where
  name : String
  importDocs : String
  usageDocs : String

def sp4 : String := "    "

def sp10 : String := "          "

def catalogHeadCore : String :=
  "    There are some prestyled components available for use. Please use your best judgement to use any of these components if the app calls for one.\n\n    Here are the components that are available, along with how to import them, and how to use them:"

/-- The text the catalog branch of `getSystemPrompt` places before the
serialized component blocks. -/
def catalogHead : String := "\n" ++ catalogHeadCore ++ "\n" ++ sp4

def comp1core : String := "          <component>\n          <name>"

def comp2core : String := "          </name>\n          <import-instructions>"

def comp3core : String := "          </import-instructions>\n          <usage-instructions>"

def comp4core : String := "          </usage-instructions>\n          </component>\n        "

/-- One serialized `<component>` block, exactly as the template inside
`shadcnDocs.map((component) => ...)` produces it. -/
def componentBlock (c : CatalogEntry) : String :=
  "\n" ++ comp1core ++ "\n" ++ sp10 ++ c.name ++
    "\n" ++ comp2core ++ "\n" ++ sp10 ++ c.importDocs ++
    "\n" ++ comp3core ++ "\n" ++ sp10 ++ c.usageDocs ++
    "\n" ++ comp4core

/-- Model of `Array.prototype.join("\n")`. -/
def joinStrNl : List String → String
  | [] => ""
  | [s] => s
  | s :: rest => s ++ "\n" ++ joinStrNl rest

def catalogTailStr : String := "\n" ++ sp4

/-- The whole text appended by the `if (shadcn)` branch. -/
def catalogSection (docs : List CatalogEntry) : String :=
  catalogHead ++ joinStrNl (docs.map componentBlock) ++ catalogTailStr

def noLibsCore : String := "    NO OTHER LIBRARIES (e.g. zod, hookform) ARE INSTALLED OR ABLE TO BE IMPORTED.\n  "

/-- The text appended after the optional catalog section. -/
def noLibsNote : String := "\n" ++ noLibsCore

/-- Model of `getSystemPrompt` (route.ts lines 92-1323): the fixed rule
text, optionally extended with one serialized block per catalog entry,
then the no-other-libraries reminder, finally passed through `dedent`.
The catalog corpus is passed explicitly; in the source it is the imported
`shadcnDocs` table. -/
def getSystemPrompt (shadcnDocs : List CatalogEntry) (shadcn : Bool) : String :=
  dedent ((basePrompt ++ (if shadcn then catalogSection shadcnDocs else "")) ++ noLibsNote)

/-! ### Block structure of the composed instruction -/

/-- The marker line of a serialized catalog block: the opening
`<component>` tag, which the serializer places on a line of its own. -/
def marker : List Char := "<component>".data

/-- The trimmed content lines contributed by one serialized catalog block. -/
def entryLines (e : CatalogEntry) : List (List Char) :=
  [marker, "<name>".data, e.name.data] ++
    (["</name>".data, "<import-instructions>".data] ++
      (contentLines e.importDocs.data ++
        (["</import-instructions>".data, "<usage-instructions>".data] ++
          (contentLines e.usageDocs.data ++
            ["</usage-instructions>".data, "</component>".data]))))

/-! ### Counting marker lines -/

/-- The number of serialized catalog blocks a composed instruction
contains, measured by its `<component>` marker lines. -/
def blockCount (s : String) : Nat := (contentLines s.data).count marker

/-- Modelled from the spec: a sample catalog corpus in the shape the spec
gives for the documentation table (component name, import instructions,
usage instructions); the corpus module `@/utils/shadcn-docs` itself is not
among the sources. -/
def sampleShadcnDocs : List CatalogEntry :=
  [{ name := "Button",
     importDocs := "import \x7b Button \x7d from \"/components/ui/button\"",
     usageDocs := "<Button variant=\"outline\">Button</Button>" },
   { name := "Card",
     importDocs := "import \x7b Card, CardContent \x7d from \"/components/ui/card\"",
     usageDocs := "<Card>\n<CardContent>content</CardContent>\n</Card>" }]

/-! ### The request schema and the POST handler -/

inductive Role where
  | user
  | assistant
deriving DecidableEq, Repr

/-- One conversation turn as validated by the request schema. -/
structure ChatMessage where
  role : Role
  content : String
deriving DecidableEq, Repr

/-- JSON values, as produced by `await req.json()`. -/
inductive Json where
  | null
  | bool (b : Bool)
  | num (n : Int)
  | str (s : String)
  | arr (elems : List Json)
  | obj (fields : List (String × Json))

/-- zod's `getParsedType` for the JSON values representable here. -/
def getParsedType : Json → String
  | .null => "null"
  | .bool _ => "boolean"
  | .num _ => "number"
  | .str _ => "string"
  | .arr _ => "array"
  | .obj _ => "object"

inductive PathSeg where
  | key (k : String)
  | idx (i : Nat)
deriving DecidableEq, Repr

structure ZodIssue where
  code : String
  path : List PathSeg
  message : String
deriving DecidableEq, Repr

/-- zod's issue for a missing required value. -/
def requiredIssue (path : List PathSeg) : ZodIssue :=
  { code := "invalid_type", path := path, message := "Required" }

/-- zod's `invalid_type` issue for a present but wrongly-typed value. -/
def typeIssue (expected : String) (received : Json) (path : List PathSeg) :
    ZodIssue :=
  { code := "invalid_type", path := path,
    message := "Expected " ++ expected ++ ", received " ++
      getParsedType received }

/-- Field access on a parsed JSON object (`JSON.parse` keeps one value per
key, so association lookup is faithful). -/
def lookupField (fields : List (String × Json)) (k : String) : Option Json :=
  match fields with
  | [] => none
  | (k', v) :: rest => if k' = k then some v else lookupField rest k

/-- zod's issue for a string outside the enum of roles. -/
def enumValueIssue (path : List PathSeg) (s : String) : ZodIssue :=
  let msg := "Invalid enum value. Expected \x27user\x27 | \x27assistant\x27, received \x27" ++ s ++ "\x27"
  { code := "invalid_enum_value", path := path, message := msg }

/-- zod's issue for a non-string value where the role enum was expected. -/
def enumTypeIssue (path : List PathSeg) (j : Json) : ZodIssue :=
  let msg := "Expected \x27user\x27 | \x27assistant\x27, received " ++ getParsedType j
  { code := "invalid_type", path := path, message := msg }

/-- zod parse of a `role` field (`z.enum(["user", "assistant"])`). -/
def parseRole (path : List PathSeg) : Option Json →
    Except (List ZodIssue) Role
  | none => .error [requiredIssue path]
  | some (.str s) =>
    if s = "user" then .ok .user
    else if s = "assistant" then .ok .assistant
    else .error [enumValueIssue path s]
  | some j => .error [enumTypeIssue path j]

/-- zod parse of a `content` field (`z.string()`). -/
def parseContent (path : List PathSeg) : Option Json →
    Except (List ZodIssue) String
  | none => .error [requiredIssue path]
  | some (.str s) => .ok s
  | some j => .error [typeIssue "string" j path]

/-- zod parse of one element of `messages` (the object parser collects the
issues of both declared fields, in declaration order). -/
def parseMessage (i : Nat) : Json → Except (List ZodIssue) ChatMessage
  | .obj fields =>
    match parseRole [.key "messages", .idx i, .key "role"]
        (lookupField fields "role"),
      parseContent [.key "messages", .idx i, .key "content"]
        (lookupField fields "content") with
    | .ok r, .ok c => .ok { role := r, content := c }
    | .error e1, .ok _ => .error e1
    | .ok _, .error e2 => .error e2
    | .error e1, .error e2 => .error (e1 ++ e2)
  | j => .error [typeIssue "object" j [.key "messages", .idx i]]

/-- zod parse of the elements of the `messages` array, issues collected in
element order. -/
def parseMessagesAux (i : Nat) : List Json →
    Except (List ZodIssue) (List ChatMessage)
  | [] => .ok []
  | j :: rest =>
    match parseMessage i j, parseMessagesAux (i + 1) rest with
    | .ok m, .ok ms => .ok (m :: ms)
    | .error e, .ok _ => .error e
    | .ok _, .error es => .error es
    | .error e, .error es => .error (e ++ es)

/-- zod parse of the `messages` field (`z.array(...)`, required). -/
def parseMessagesField : Option Json →
    Except (List ZodIssue) (List ChatMessage)
  | none => .error [requiredIssue [.key "messages"]]
  | some (.arr elems) => parseMessagesAux 0 elems
  | some j => .error [typeIssue "array" j [.key "messages"]]

/-- zod parse of the `shadcn` field (`z.boolean().default(false)`: the
default applies only when the key is absent). -/
def parseShadcn : Option Json → Except (List ZodIssue) Bool
  | none => .ok false
  | some (.bool b) => .ok b
  | some j => .error [typeIssue "boolean" j [.key "shadcn"]]

/-- Model of `z.object({ shadcn, messages }).safeParse` (route.ts lines
11-21): the top-level value must be an object; issues are collected across
the two declared keys in declaration order; unknown keys are stripped. -/
def zodParse : Json → Except (List ZodIssue) (Bool × List ChatMessage)
  | .obj fields =>
    match parseShadcn (lookupField fields "shadcn"),
      parseMessagesField (lookupField fields "messages") with
    | .ok b, .ok ms => .ok (b, ms)
    | .error e, .ok _ => .error e
    | .ok _, .error es => .error es
    | .error e, .error es => .error (e ++ es)
  | j => .error [typeIssue "object" j []]

def renderPathSeg : PathSeg → String
  | .key k => "\"" ++ k ++ "\""
  | .idx i => toString i

def renderPath (p : List PathSeg) : String :=
  "[" ++ String.intercalate ", " (p.map renderPathSeg) ++ "]"

/-- One issue record of the 422 body. -/
def renderIssue (i : ZodIssue) : String :=
  "\x7b \"code\": \"" ++ i.code ++ "\", \"path\": " ++ renderPath i.path ++
    ", \"message\": \"" ++ i.message ++ "\" \x7d"

/-- The comma-joined issue records. -/
def joinIssues : List ZodIssue → String
  | [] => ""
  | [i] => renderIssue i
  | i :: rest => renderIssue i ++ ",\n" ++ joinIssues rest

/-- Model of `result.error.message`: zod's `ZodError.message` is
`JSON.stringify(this.issues, null, 2)`, the serialization of the full
issue list (modelled here up to JSON whitespace conventions). -/
def errorBody (issues : List ZodIssue) : String :=
  "[" ++ joinIssues issues ++ "]"

/-- The fixed instruction suffix appended to user-authored content
(route.ts lines 51-53). -/
def geminiSuffix : String :=
  " in less than 150 lines of code please only return code no text nothing just code  " ++
    "\nPlease ONLY return code, NO backticks or language names."

structure GeminiContent where
  role : String
  text : String
deriving DecidableEq, Repr

/-- The `messages.map(...)` conversion to Gemini format (route.ts lines
45-57); `parts` is always the singleton `[{ text }]`, modelled by `text`. -/
def toGeminiContent (m : ChatMessage) : GeminiContent :=
  { role := if m.role = Role.assistant then "model" else "user"
    text := if m.role = Role.user then m.content ++ geminiSuffix else m.content }

/-- Observable behaviour of the provider session for one request: whether
`sendMessageStream` rejects (e.g. missing or invalid credential, quota),
the fragment texts the stream yields before it ends, and whether the
iteration fails after those fragments instead of completing. -/
structure ProviderBehavior where
  sendFails : Bool
  fragments : List String
  streamFails : Bool

/-- The single outbound generation request: the seeded chat history (the
composed system prompt) and the one message text passed to
`sendMessageStream` (route.ts lines 35-42 and 60-62). -/
structure OutboundRequest where
  history : List GeminiContent
  text : String
deriving DecidableEq, Repr

inductive StreamEnd where
  | closedNormally
  | errored
deriving DecidableEq, Repr

/-- UTF-8 encoding of one character (`new TextEncoder().encode`). -/
def utf8Bytes (c : Char) : List Nat :=
  let v := c.toNat
  if v < 0x80 then [v]
  else if v < 0x800 then [0xC0 + v / 0x40, 0x80 + v % 0x40]
  else if v < 0x10000 then
    [0xE0 + v / 0x1000, 0x80 + v / 0x40 % 0x40, 0x80 + v % 0x40]
  else
    [0xF0 + v / 0x40000, 0x80 + v / 0x1000 % 0x40, 0x80 + v / 0x40 % 0x40,
      0x80 + v % 0x40]

def encodeUtf8 (s : String) : List Nat :=
  s.data.flatMap utf8Bytes

/-- A handler outcome: either an exception escaped the handler, or a plain
response, or the streaming response (status, headers, the byte chunks
enqueued on the `ReadableStream` in order, and whether the stream closed
normally or — because the `start` callback rejected mid-iteration — ended
in an error state). -/
inductive HandlerOutcome where
  | unhandled
  | response (status : Nat) (headers : List (String × String)) (body : String)
  | streamed (status : Nat) (headers : List (String × String))
      (chunks : List (List Nat)) (ending : StreamEnd)
deriving DecidableEq, Repr

/-- `JSON.stringify({ error: "Failed to generate response" })`. -/
def genericErrorBody : String :=
  "\x7b\"error\":\"Failed to generate response\"\x7d"

def streamHeaders : List (String × String) :=
  [("Content-Type", "text/plain"), ("Cache-Control", "no-cache")]

/-- Model of the `POST` handler (route.ts lines 9-90), returning the HTTP
outcome together with the outbound provider request, if one was issued.
`body = none` models a request body that is not parseable as JSON:
`await req.json()` (line 10) rejects outside the try/catch, so nothing is
returned.  Validation failures return 422 before any provider object is
touched.  Inside the try block, an empty conversation makes
`geminiMessages[geminiMessages.length - 1].parts` throw before
`sendMessageStream` is called; that and a rejected `sendMessageStream` are
caught and mapped to the generic 500.  Otherwise the handler returns the
200 `text/plain` streaming response; the relay enqueues the UTF-8 bytes of
every non-empty fragment in order, closes on normal completion, and errors
the stream when the fragment iteration fails. -/
def runPOST (shadcnDocs : List CatalogEntry) (pb : ProviderBehavior)
    (body : Option Json) : HandlerOutcome × Option OutboundRequest :=
  match body with
  | none => (.unhandled, none)
  | some json =>
    match zodParse json with
    | .error issues => (.response 422 [] (errorBody issues), none)
    | .ok (shadcn, messages) =>
      let systemPrompt := getSystemPrompt shadcnDocs shadcn
      let geminiMessages := messages.map toGeminiContent
      match geminiMessages.getLast? with
      | none => (.response 500 [] genericErrorBody, none)
      | some last =>
        let call : OutboundRequest :=
          { history := [{ role := "user", text := systemPrompt }],
            text := last.text }
        if pb.sendFails then
          (.response 500 [] genericErrorBody, some call)
        else
          (.streamed 200 streamHeaders
            ((pb.fragments.filter fun t => t ≠ "").map encodeUtf8)
            (if pb.streamFails then .errored else .closedNormally),
            some call)

/-! ### Helper notions for the handler claims -/

/-- The in-order concatenation of a list of fragment texts. -/
def concatStrings : List String → String
  | [] => ""
  | s :: rest => s ++ concatStrings rest

/-- Substring test on character lists. -/
def containsSub (p : List Char) : List Char → Bool
  | [] => decide (p = [])
  | c :: rest => List.isPrefixOf p (c :: rest) || containsSub p rest

/-- The HTTP status of an outcome, when one was produced at all. -/
def statusOf : HandlerOutcome → Option Nat
  | .unhandled => none
  | .response s _ _ => some s
  | .streamed s _ _ _ => some s

/-! ### The claims -/

theorem splitNl_ne_nil (s : List Char) : splitNl s ≠ [] := by
  cases s with
  | nil => simp [splitNl]
  | cons c rest =>
    by_cases h : c = '\n'
    · simp [splitNl, h]
    · simp only [splitNl, if_neg h]
      cases splitNl rest with
      | nil => simp
      | cons line lines => simp

theorem splitNl_newline_cons (s : List Char) :
    splitNl ('\n' :: s) = [] :: splitNl s := by
  simp [splitNl]

theorem splitNl_cons_of_ne (c : Char) (s : List Char) (h : c ≠ '\n') :
    splitNl (c :: s) =
      (c :: (splitNl s).headI) :: (splitNl s).tail := by
  simp only [splitNl, if_neg h]
  obtain ⟨line, lines, hs⟩ := List.exists_cons_of_ne_nil (splitNl_ne_nil s)
  rw [hs]
  simp

/-- Splitting distributes over an append whose junction is a newline. -/
theorem splitNl_append (a b : List Char) :
    splitNl (a ++ '\n' :: b) = splitNl a ++ splitNl b := by
  induction a with
  | nil => simp [splitNl]
  | cons c a ih =>
    by_cases h : c = '\n'
    · subst h
      simp only [List.cons_append, splitNl_newline_cons, ih, List.cons_append]
    · rw [List.cons_append, splitNl_cons_of_ne _ _ h, splitNl_cons_of_ne _ _ h, ih]
      obtain ⟨line, lines, hs⟩ := List.exists_cons_of_ne_nil (splitNl_ne_nil a)
      rw [hs]
      simp

theorem newline_not_mem_splitNl (s : List Char) :
    ∀ l ∈ splitNl s, '\n' ∉ l := by
  induction s with
  | nil => intro l hl; simp [splitNl] at hl; simp [hl]
  | cons c rest ih =>
    intro l hl
    by_cases h : c = '\n'
    · subst h
      rw [splitNl_newline_cons] at hl
      rcases List.mem_cons.mp hl with hl | hl
      · simp [hl]
      · exact ih l hl
    · rw [splitNl_cons_of_ne _ _ h] at hl
      obtain ⟨line, lines, hs⟩ := List.exists_cons_of_ne_nil (splitNl_ne_nil rest)
      rw [hs] at hl
      simp only [List.headI, List.tail] at hl
      rcases List.mem_cons.mp hl with hl | hl
      · subst hl
        intro hmem
        rcases List.mem_cons.mp hmem with hc | hc
        · exact h hc.symm
        · exact ih line (by rw [hs]; exact List.mem_cons_self _ _) hc
      · exact ih l (by rw [hs]; exact List.mem_cons_of_mem _ hl)

theorem splitNl_of_no_newline (l : List Char) (h : '\n' ∉ l) :
    splitNl l = [l] := by
  induction l with
  | nil => simp [splitNl]
  | cons c rest ih =>
    have hc : c ≠ '\n' := fun hc => h (hc ▸ List.mem_cons_self _ _)
    have hr : '\n' ∉ rest := fun hr => h (List.mem_cons_of_mem _ hr)
    rw [splitNl_cons_of_ne _ _ hc, ih hr]
    simp

theorem joinNl_splitNl (s : List Char) : joinNl (splitNl s) = s := by
  induction s with
  | nil => simp [splitNl, joinNl]
  | cons c rest ih =>
    by_cases h : c = '\n'
    · subst h
      rw [splitNl_newline_cons]
      obtain ⟨line, lines, hs⟩ := List.exists_cons_of_ne_nil (splitNl_ne_nil rest)
      rw [hs] at ih ⊢
      simp only [joinNl]
      rw [ih]
      simp
    · rw [splitNl_cons_of_ne _ _ h]
      obtain ⟨line, lines, hs⟩ := List.exists_cons_of_ne_nil (splitNl_ne_nil rest)
      rw [hs] at ih ⊢
      cases lines with
      | nil => simpa [joinNl] using congrArg (c :: ·) ih
      | cons l2 ls =>
        simp only [joinNl, List.headI, List.tail] at ih ⊢
        rw [List.cons_append, ih]

theorem splitNl_joinNl (ls : List (List Char)) (hne : ls ≠ [])
    (hnl : ∀ l ∈ ls, '\n' ∉ l) :
    splitNl (joinNl ls) = ls := by
  induction ls with
  | nil => exact absurd rfl hne
  | cons l rest ih =>
    cases rest with
    | nil =>
      simp only [joinNl]
      exact splitNl_of_no_newline l (hnl l (List.mem_cons_self _ _))
    | cons l2 ls2 =>
      simp only [joinNl]
      rw [splitNl_append, splitNl_of_no_newline l (hnl l (List.mem_cons_self _ _))]
      rw [ih (by simp) (fun x hx => hnl x (List.mem_cons_of_mem _ hx))]
      simp

theorem dropWhile_app_of_ne {α : Type} (p : α → Bool) (a b : List α)
    (h : a.dropWhile p ≠ []) :
    (a ++ b).dropWhile p = a.dropWhile p ++ b := by
  induction a with
  | nil => simp at h
  | cons c t ih =>
    by_cases hc : p c
    · simp only [List.cons_append, List.dropWhile_cons, hc, if_true] at h ⊢
      exact ih h
    · simp only [List.cons_append, List.dropWhile_cons, hc] at h ⊢
      simp [hc]

theorem dropWhile_app_of_all {α : Type} (p : α → Bool) (a b : List α)
    (h : ∀ x ∈ a, p x = true) :
    (a ++ b).dropWhile p = b.dropWhile p := by
  induction a with
  | nil => simp
  | cons c t ih =>
    have hc := h c (List.mem_cons_self _ _)
    simp only [List.cons_append, List.dropWhile_cons, hc, if_true]
    exact ih fun x hx => h x (List.mem_cons_of_mem _ hx)

theorem wsDropBack_eq_rdropWhile (l : List Char) :
    wsDropBack l = l.rdropWhile jsWs := rfl

/-- Front-trimming and back-trimming commute. -/
theorem dropWhile_rdropWhile_comm (l : List Char) :
    (l.rdropWhile jsWs).dropWhile jsWs = (l.dropWhile jsWs).rdropWhile jsWs := by
  induction l using List.reverseRecOn with
  | nil => simp
  | append_singleton t x ih =>
    by_cases hx : jsWs x
    · rw [List.rdropWhile_concat_pos _ _ _ hx]
      by_cases ht : t.dropWhile jsWs = []
      · have hall : ∀ c ∈ t, jsWs c = true := List.dropWhile_eq_nil_iff.mp ht
        rw [dropWhile_app_of_all _ _ _ hall, ih, ht]
        simp [List.dropWhile_cons, hx]
      · rw [dropWhile_app_of_ne _ _ _ ht, List.rdropWhile_concat_pos _ _ _ hx, ih]
    · rw [List.rdropWhile_concat_neg _ _ _ hx]
      by_cases ht : t.dropWhile jsWs = []
      · have hall : ∀ c ∈ t, jsWs c = true := List.dropWhile_eq_nil_iff.mp ht
        rw [dropWhile_app_of_all _ _ _ hall]
        simp [List.dropWhile_cons, hx, List.rdropWhile_singleton]
      · rw [dropWhile_app_of_ne _ _ _ ht, List.rdropWhile_concat_neg _ _ _ hx]

theorem trimBoth_reverse (l : List Char) :
    trimBoth l.reverse = (trimBoth l).reverse := by
  have h1 : ∀ x : List Char, wsDropBack x.reverse = (x.dropWhile jsWs).reverse := by
    intro x
    simp [wsDropBack, List.reverse_reverse]
  have h2 : ∀ x : List Char, (x.reverse).dropWhile jsWs = (wsDropBack x).reverse := by
    intro x
    simp [wsDropBack, List.reverse_reverse]
  calc trimBoth l.reverse = wsDropBack ((l.reverse).dropWhile jsWs) := rfl
    _ = wsDropBack ((wsDropBack l).reverse) := by rw [h2]
    _ = (((wsDropBack l)).dropWhile jsWs).reverse := h1 _
    _ = (((l.rdropWhile jsWs)).dropWhile jsWs).reverse := by rw [wsDropBack_eq_rdropWhile]
    _ = (((l.dropWhile jsWs)).rdropWhile jsWs).reverse := by rw [dropWhile_rdropWhile_comm]
    _ = (trimBoth l).reverse := rfl

theorem contentLines_cons_ws (c : Char) (s : List Char) (hc : jsWs c = true) :
    contentLines (c :: s) = contentLines s := by
  by_cases h : c = '\n'
  · subst h
    simp only [contentLines, splitNl_newline_cons, List.map_cons, List.filter_cons]
    have : trimBoth [] = [] := rfl
    simp [this]
  · rw [contentLines, splitNl_cons_of_ne _ _ h]
    obtain ⟨line, lines, hs⟩ := List.exists_cons_of_ne_nil (splitNl_ne_nil s)
    have htrim : trimBoth (c :: line) = trimBoth line := by
      simp only [trimBoth, List.dropWhile_cons, hc, if_true]
    rw [hs]
    simp only [List.headI, List.tail, List.map_cons, List.filter_cons, htrim]
    rw [contentLines, hs]
    simp [List.map_cons, List.filter_cons]

theorem contentLines_append_newline (a b : List Char) :
    contentLines (a ++ '\n' :: b) = contentLines a ++ contentLines b := by
  simp [contentLines, splitNl_append, List.filter_append]

theorem contentLines_ws_app (w x : List Char) (hw : ∀ c ∈ w, jsWs c = true) :
    contentLines (w ++ x) = contentLines x := by
  induction w with
  | nil => simp
  | cons c t ih =>
    rw [List.cons_append, contentLines_cons_ws _ _ (hw c (List.mem_cons_self _ _))]
    exact ih fun y hy => hw y (List.mem_cons_of_mem _ hy)

theorem contentLines_dropWhile (s : List Char) :
    contentLines (s.dropWhile jsWs) = contentLines s := by
  induction s with
  | nil => simp
  | cons c t ih =>
    by_cases hc : jsWs c
    · rw [List.dropWhile_cons, if_pos hc, ih, contentLines_cons_ws _ _ hc]
    · rw [List.dropWhile_cons, if_neg hc]

theorem onLast_append_one (f : List Char → List Char) (xs : List (List Char))
    (x : List Char) : onLast f (xs ++ [x]) = xs ++ [f x] := by
  induction xs with
  | nil => rfl
  | cons y ys ih =>
    cases ys with
    | nil => simp [onLast]
    | cons z zs =>
      have h1 : (y :: z :: zs) ++ [x] = y :: ((z :: zs) ++ [x]) := rfl
      have h2 : onLast f (y :: ((z :: zs) ++ [x])) =
          y :: onLast f ((z :: zs) ++ [x]) := rfl
      rw [h1, h2, ih]
      rfl

theorem splitNl_append_one (a : List Char) (c : Char) (h : c ≠ '\n') :
    splitNl (a ++ [c]) = onLast (· ++ [c]) (splitNl a) := by
  induction a with
  | nil =>
    rw [List.nil_append, splitNl_cons_of_ne _ _ h]
    rfl
  | cons c' a ih =>
    by_cases hc' : c' = '\n'
    · subst hc'
      rw [List.cons_append, splitNl_newline_cons, splitNl_newline_cons, ih]
      obtain ⟨line, lines, hs⟩ := List.exists_cons_of_ne_nil (splitNl_ne_nil a)
      rw [hs]
      rfl
    · rw [List.cons_append, splitNl_cons_of_ne _ _ hc', splitNl_cons_of_ne _ _ hc', ih]
      obtain ⟨line, lines, hs⟩ := List.exists_cons_of_ne_nil (splitNl_ne_nil a)
      rw [hs]
      cases lines with
      | nil => rfl
      | cons l2 ls => rfl

theorem splitNl_reverse (s : List Char) :
    splitNl s.reverse = ((splitNl s).map List.reverse).reverse := by
  induction s with
  | nil => rfl
  | cons c s ih =>
    by_cases hc : c = '\n'
    · subst hc
      have happ : s.reverse ++ ['\n'] = s.reverse ++ '\n' :: [] := rfl
      rw [List.reverse_cons, happ, splitNl_append, ih, splitNl_newline_cons]
      simp [splitNl]
    · rw [List.reverse_cons, splitNl_append_one _ _ hc, ih, splitNl_cons_of_ne _ _ hc]
      obtain ⟨line, lines, hs⟩ := List.exists_cons_of_ne_nil (splitNl_ne_nil s)
      rw [hs]
      simp only [List.map_cons, List.reverse_cons, onLast_append_one,
        List.headI, List.tail]

theorem filter_ne_nil_map_reverse (X : List (List Char)) :
    (X.map List.reverse).filter (fun l => l ≠ []) =
      (X.filter (fun l => l ≠ [])).map List.reverse := by
  induction X with
  | nil => rfl
  | cons x xs ih =>
    by_cases hx : x = []
    · subst hx
      simpa using ih
    · simp only [List.map_cons, List.filter_cons]
      simp [hx]
      simpa using ih

theorem map_trimBoth_map_reverse (X : List (List Char)) :
    (X.map List.reverse).map trimBoth = (X.map trimBoth).map List.reverse := by
  rw [List.map_map, List.map_map]
  exact List.map_congr_left fun l _ => by
    simp only [Function.comp_apply]
    exact trimBoth_reverse l

theorem contentLines_reverse (s : List Char) :
    contentLines s.reverse = ((contentLines s).map List.reverse).reverse := by
  rw [contentLines, splitNl_reverse, List.map_reverse, List.filter_reverse,
    map_trimBoth_map_reverse, filter_ne_nil_map_reverse]
  rfl

theorem contentLines_wsDropBack (s : List Char) :
    contentLines (wsDropBack s) = contentLines s := by
  have h1 : wsDropBack s = (s.reverse.dropWhile jsWs).reverse := rfl
  rw [h1, contentLines_reverse, contentLines_dropWhile, contentLines_reverse]
  simp [List.map_map, Function.comp, List.map_reverse]

theorem contentLines_trimBoth (s : List Char) :
    contentLines (trimBoth s) = contentLines s := by
  rw [trimBoth, contentLines_wsDropBack, contentLines_dropWhile]

theorem dropWhile_drop_of_take_ws (k : Nat) (l : List Char)
    (h : ∀ c ∈ l.take k, jsWs c = true) :
    (l.drop k).dropWhile jsWs = l.dropWhile jsWs := by
  induction k generalizing l with
  | zero => simp
  | succ k ih =>
    cases l with
    | nil => simp
    | cons c t =>
      have hc : jsWs c = true := h c (by simp)
      rw [List.drop_succ_cons, List.dropWhile_cons, if_pos hc]
      exact ih t fun x hx => h x (List.mem_cons_of_mem _ (by simpa using hx))

theorem trimBoth_drop_of_take_ws (k : Nat) (l : List Char)
    (h : ∀ c ∈ l.take k, jsWs c = true) :
    trimBoth (l.drop k) = trimBoth l := by
  rw [trimBoth, trimBoth, dropWhile_drop_of_take_ws k l h]

theorem lineIndent_take_ws (l : List Char) (v : Nat)
    (h : lineIndent l = some v) : ∀ c ∈ l.take v, jsWs c = true := by
  rw [lineIndent] at h
  by_cases hcond : 0 < (l.takeWhile jsWs).length ∧ (l.takeWhile jsWs).length < l.length
  · rw [if_pos hcond] at h
    have hv : v = (l.takeWhile jsWs).length := (Option.some.injEq _ _ ▸ h).symm
    subst hv
    obtain ⟨t, ht⟩ := List.takeWhile_prefix (l := l) jsWs
    intro c hc
    apply List.mem_takeWhile_imp (l := l) (p := jsWs)
    have htake : l.take (l.takeWhile jsWs).length = l.takeWhile jsWs := by
      set tw := l.takeWhile jsWs with htw
      calc l.take tw.length = (tw ++ t).take tw.length := by rw [ht]
        _ = tw := List.take_left _ _
    rwa [htake] at hc
  · rw [if_neg hcond] at h
    exact absurd h (by simp)

theorem all_ws_of_lineIndent_none (c : Char) (t : List Char)
    (hc : jsWs c = true) (h : lineIndent (c :: t) = none) :
    ∀ x ∈ c :: t, jsWs x = true := by
  rw [lineIndent] at h
  set r := ((c :: t).takeWhile jsWs).length with hr
  have hpos : 0 < r := by
    rw [hr, List.takeWhile_cons, if_pos hc]
    simp
  by_cases hlt : r < (c :: t).length
  · rw [if_pos ⟨hpos, hlt⟩] at h
    exact absurd h (by simp)
  · have hlen : r = (c :: t).length := by
      have hle := (List.takeWhile_prefix (l := c :: t) jsWs).length_le
      rw [← hr] at hle
      omega
    have heq : (c :: t).takeWhile jsWs = c :: t :=
      (List.takeWhile_prefix jsWs).eq_of_length hlen
    intro x hx
    exact List.mem_takeWhile_imp (heq ▸ hx)

theorem mindentOf_le (lines : List (List Char)) (k : Nat)
    (h : mindentOf lines = some k) :
    ∀ l ∈ lines, ∀ v, lineIndent l = some v → k ≤ v := by
  suffices haux : ∀ (ls : List (List Char)) (acc : Option Nat) (k : Nat),
      ls.foldl
        (fun acc l =>
          match lineIndent l with
          | none => acc
          | some v =>
            match acc with
            | none => some v
            | some m => some (min m v))
        acc = some k →
      (∀ m, acc = some m → k ≤ m) ∧
        (∀ l ∈ ls, ∀ v, lineIndent l = some v → k ≤ v) by
    exact (haux lines none k h).2
  intro ls
  induction ls with
  | nil =>
    intro acc k h
    refine ⟨fun m hm => ?_, fun l hl => absurd hl (List.not_mem_nil _)⟩
    simp only [List.foldl_nil] at h
    rw [hm] at h
    exact le_of_eq (Option.some.injEq _ _ ▸ h).symm
  | cons l ls ih =>
    intro acc k h
    simp only [List.foldl_cons] at h
    rcases hli : lineIndent l with _ | v
    · rw [hli] at h
      obtain ⟨h1, h2⟩ := ih acc k h
      refine ⟨h1, fun x hx v hv => ?_⟩
      rcases List.mem_cons.mp hx with hx | hx
      · subst hx
        rw [hli] at hv
        exact absurd hv (by simp)
      · exact h2 x hx v hv
    · rw [hli] at h
      rcases acc with _ | m
      · obtain ⟨h1, h2⟩ := ih (some v) k h
        refine ⟨fun m hm => absurd hm (by simp), fun x hx w hw => ?_⟩
        rcases List.mem_cons.mp hx with hx | hx
        · subst hx
          rw [hli] at hw
          exact (Option.some.injEq _ _ ▸ hw) ▸ h1 v rfl
        · exact h2 x hx w hw
      · obtain ⟨h1, h2⟩ := ih (some (min m v)) k h
        have hkmv : k ≤ min m v := h1 _ rfl
        refine ⟨fun m' hm' => ?_, fun x hx w hw => ?_⟩
        · have hmm : m = m' := by simpa using hm'
          subst hmm
          exact le_trans hkmv (min_le_left _ _)
        · rcases List.mem_cons.mp hx with hx | hx
          · subst hx
            rw [hli] at hw
            have : w = v := by simpa using hw.symm
            subst this
            exact le_trans hkmv (min_le_right _ _)
          · exact h2 x hx w hw

theorem trimBoth_stripLine (k : Nat) (l : List Char)
    (hmin : ∀ v, lineIndent l = some v → k ≤ v) :
    trimBoth (stripLine k l) = trimBoth l := by
  cases l with
  | nil => rfl
  | cons c t =>
    rw [stripLine]
    by_cases hcond : (c == ' ' || c == '\t') = true
    · rw [if_pos hcond]
      have hc : jsWs c = true := by
        rcases Bool.or_eq_true_iff.mp hcond with h | h
        · rw [jsWs]
          simp [h]
        · rw [jsWs]
          simp [h]
      apply trimBoth_drop_of_take_ws
      rcases hli : lineIndent (c :: t) with _ | v
      · have hall := all_ws_of_lineIndent_none c t hc hli
        exact fun x hx => hall x (List.take_subset _ _ hx)
      · have hkv : k ≤ v := hmin v hli
        have hws := lineIndent_take_ws _ _ hli
        intro x hx
        apply hws
        have : (c :: t).take k = ((c :: t).take v).take k := by
          rw [List.take_take, Nat.min_eq_left hkv]
        rw [this] at hx
        exact List.take_subset _ _ hx
    · rw [if_neg hcond]

theorem contentLines_joinNl_map_trimBoth (ls : List (List Char))
    (hne : ls ≠ []) (hnl : ∀ l ∈ ls, '\n' ∉ l) :
    contentLines (joinNl ls) = (ls.map trimBoth).filter (fun l => l ≠ []) := by
  rw [contentLines, splitNl_joinNl ls hne hnl]

/-- Applying `dedent` to a string does not change its trimmed content
lines: the minimal-indentation slicing removes only whitespace from each
line, and the final trim only discards all-whitespace boundary lines. -/
theorem contentLines_dedentChars (s : List Char) :
    contentLines (dedentChars s) = contentLines s := by
  rw [dedentChars]
  rcases hmind : mindentOf (splitNl s) with _ | k
  · simp only [hmind]
    rw [contentLines_trimBoth]
  · simp only [hmind]
    rw [contentLines_trimBoth]
    have hne : (splitNl s).map (stripLine k) ≠ [] := by
      intro hmap
      exact splitNl_ne_nil s (List.map_eq_nil_iff.mp hmap)
    have hnl : ∀ l ∈ (splitNl s).map (stripLine k), '\n' ∉ l := by
      intro l hl
      obtain ⟨l0, hl0, hstrip⟩ := List.mem_map.mp hl
      have hsub : l ⊆ l0 := by
        subst hstrip
        cases l0 with
        | nil => simp [stripLine]
        | cons c t =>
          rw [stripLine]
          by_cases hcond : (c == ' ' || c == '\t') = true
          · rw [if_pos hcond]
            exact List.drop_subset _ _
          · rw [if_neg hcond]
            exact fun x hx => hx
      exact fun hmem => newline_not_mem_splitNl s l0 hl0 (hsub hmem)
    rw [contentLines_joinNl_map_trimBoth _ hne hnl, List.map_map]
    have hmapeq :
        (splitNl s).map (trimBoth ∘ stripLine k) = (splitNl s).map trimBoth :=
      List.map_congr_left fun l hl =>
        trimBoth_stripLine k l fun v hv =>
          mindentOf_le (splitNl s) k hmind l hl v hv
    rw [hmapeq]
    rfl

theorem data_nl : ("\n" : String).data = ['\n'] := rfl

theorem dedent_data (s : String) : (dedent s).data = dedentChars s.data := rfl

theorem contentLines_cons_nl (s : List Char) :
    contentLines ('\n' :: s) = contentLines s :=
  contentLines_cons_ws _ _ (by decide)

theorem contentLines_sp10 (x : List Char) :
    contentLines (sp10.data ++ x) = contentLines x :=
  contentLines_ws_app _ _ (by decide)

theorem contentLines_sp4 (x : List Char) :
    contentLines (sp4.data ++ x) = contentLines x :=
  contentLines_ws_app _ _ (by decide)

theorem cl_comp1core :
    contentLines comp1core.data = [marker, "<name>".data] := by decide

theorem cl_comp2core :
    contentLines comp2core.data =
      ["</name>".data, "<import-instructions>".data] := by decide

theorem cl_comp3core :
    contentLines comp3core.data =
      ["</import-instructions>".data, "<usage-instructions>".data] := by decide

theorem cl_comp4core :
    contentLines comp4core.data =
      ["</usage-instructions>".data, "</component>".data] := by decide

theorem cl_single_line (l : List Char) (hnl : '\n' ∉ l)
    (ht : trimBoth l = l) (hne : l ≠ []) : contentLines l = [l] := by
  rw [contentLines, splitNl_of_no_newline l hnl]
  simp [ht, hne]

/-- The content lines of one serialized block (followed by a newline and
arbitrary further text) are exactly `entryLines`. -/
theorem componentBlock_lines (e : CatalogEntry) (suf : List Char)
    (hnl : '\n' ∉ e.name.data) (ht : trimBoth e.name.data = e.name.data)
    (hne : e.name.data ≠ []) :
    contentLines ((componentBlock e).data ++ '\n' :: suf)
      = entryLines e ++ contentLines suf := by
  simp only [componentBlock, String.data_append, data_nl, List.append_assoc,
    List.singleton_append, List.cons_append, List.nil_append]
  simp only [contentLines_cons_nl, contentLines_append_newline,
    contentLines_sp10]
  rw [cl_single_line e.name.data hnl ht hne]
  simp [entryLines, cl_comp1core, cl_comp2core, cl_comp3core, cl_comp4core]

/-- The content lines of the joined block list. -/
theorem joinedBlocks_lines (docs : List CatalogEntry) (suf : List Char)
    (h : ∀ e ∈ docs, '\n' ∉ e.name.data ∧ trimBoth e.name.data = e.name.data ∧
        e.name.data ≠ []) :
    contentLines ((joinStrNl (docs.map componentBlock)).data ++ '\n' :: suf)
      = docs.flatMap entryLines ++ contentLines suf := by
  induction docs with
  | nil =>
    simp only [List.map_nil, joinStrNl, List.flatMap_nil, List.nil_append]
    rw [contentLines_cons_nl]
  | cons e rest ih =>
    obtain ⟨hnl, ht, hne⟩ := h e (List.mem_cons_self _ _)
    cases rest with
    | nil =>
      simp only [List.map_cons, List.map_nil, joinStrNl, List.flatMap_cons,
        List.flatMap_nil, List.append_nil]
      exact componentBlock_lines e suf hnl ht hne
    | cons e2 rest2 =>
      have hjoin :
          joinStrNl ((e :: e2 :: rest2).map componentBlock)
            = componentBlock e ++ "\n" ++ joinStrNl ((e2 :: rest2).map componentBlock) := by
        simp only [List.map_cons, joinStrNl]
      rw [hjoin]
      simp only [String.data_append, data_nl, List.append_assoc,
        List.singleton_append, List.cons_append, List.nil_append]
      rw [componentBlock_lines e _ hnl ht hne,
        ih fun x hx => h x (List.mem_cons_of_mem _ hx)]
      simp [List.flatMap_cons, List.append_assoc]

/-- The content lines of the composed instruction without the catalog. -/
theorem getSystemPrompt_false_lines (docs : List CatalogEntry) :
    contentLines (getSystemPrompt docs false).data
      = contentLines basePrompt.data ++ contentLines noLibsCore.data := by
  have heq : getSystemPrompt docs false
      = dedent ((basePrompt ++ "") ++ noLibsNote) := rfl
  have hempty : ("" : String).data = ([] : List Char) := rfl
  rw [heq, dedent_data, contentLines_dedentChars]
  simp only [noLibsNote, String.data_append, data_nl, hempty, List.append_nil,
    List.nil_append, List.append_assoc, List.singleton_append, List.cons_append]
  rw [contentLines_append_newline]

/-- The content lines of the composed instruction with the catalog. -/
theorem getSystemPrompt_true_lines (docs : List CatalogEntry)
    (h : ∀ e ∈ docs, '\n' ∉ e.name.data ∧ trimBoth e.name.data = e.name.data ∧
        e.name.data ≠ []) :
    contentLines (getSystemPrompt docs true).data
      = contentLines basePrompt.data ++
          (contentLines catalogHeadCore.data ++
            (docs.flatMap entryLines ++ contentLines noLibsCore.data)) := by
  have heq : getSystemPrompt docs true
      = dedent ((basePrompt ++ catalogSection docs) ++ noLibsNote) := rfl
  rw [heq, dedent_data, contentLines_dedentChars]
  simp only [catalogSection, catalogHead, catalogTailStr, noLibsNote,
    String.data_append, data_nl, List.append_assoc, List.singleton_append,
    List.cons_append, List.nil_append]
  rw [contentLines_append_newline basePrompt.data,
    contentLines_append_newline catalogHeadCore.data,
    contentLines_sp4, joinedBlocks_lines docs _ h,
    contentLines_sp4, contentLines_cons_nl]

set_option maxHeartbeats 4000000 in
theorem basePrompt_marker_free :
    (contentLines basePrompt.data).count marker = 0 := by
  simp only [basePrompt, String.data_append, data_nl, List.append_assoc,
    List.singleton_append, List.cons_append, List.nil_append]
  simp only [contentLines_append_newline, List.count_append]
  decide

theorem headCore_marker_free :
    (contentLines catalogHeadCore.data).count marker = 0 := by decide

theorem noLibsCore_marker_free :
    (contentLines noLibsCore.data).count marker = 0 := by decide

theorem entryLines_count (e : CatalogEntry)
    (hnm : e.name.data ≠ marker)
    (himp : (contentLines e.importDocs.data).count marker = 0)
    (husage : (contentLines e.usageDocs.data).count marker = 0) :
    (entryLines e).count marker = 1 := by
  have hb : (e.name.data == marker) = false := beq_eq_false_iff_ne.mpr hnm
  have t1 : (("<name>".data : List Char) == marker) = false := by decide
  have t2 : (("</name>".data : List Char) == marker) = false := by decide
  have t3 : (("<import-instructions>".data : List Char) == marker) = false := by
    decide
  have t4 : (("</import-instructions>".data : List Char) == marker) = false := by
    decide
  have t5 : (("<usage-instructions>".data : List Char) == marker) = false := by
    decide
  have t6 : (("</usage-instructions>".data : List Char) == marker) = false := by
    decide
  have t7 : (("</component>".data : List Char) == marker) = false := by decide
  simp [entryLines, List.count_append, List.count_cons, hb, t1, t2, t3, t4,
    t5, t6, t7, himp, husage, List.count_nil]

theorem flatMap_entryLines_count (docs : List CatalogEntry)
    (h : ∀ e ∈ docs, e.name.data ≠ marker ∧
        (contentLines e.importDocs.data).count marker = 0 ∧
        (contentLines e.usageDocs.data).count marker = 0) :
    (docs.flatMap entryLines).count marker = docs.length := by
  induction docs with
  | nil => simp
  | cons e rest ih =>
    obtain ⟨h1, h2, h3⟩ := h e (List.mem_cons_self _ _)
    rw [List.flatMap_cons, List.count_append, entryLines_count e h1 h2 h3,
      ih fun x hx => h x (List.mem_cons_of_mem _ hx)]
    simp [Nat.add_comm]

theorem entry_pattern_sublist (e : CatalogEntry) :
    List.Sublist [marker, "<name>".data, e.name.data] (entryLines e) :=
  List.sublist_append_left _ _

theorem flatMap_pattern_sublist (docs : List CatalogEntry) :
    List.Sublist (docs.flatMap fun e => [marker, "<name>".data, e.name.data])
      (docs.flatMap entryLines) := by
  induction docs with
  | nil => simp
  | cons e rest ih =>
    simp only [List.flatMap_cons]
    exact List.Sublist.append (entry_pattern_sublist e) ih

/-- C3: `getSystemPrompt` is a pure function of the catalog flag and the
fixed corpus (determinism is definitional for a Lean function); with the
flag off the composed instruction contains no serialized catalog block;
with the flag on it contains exactly one `<component>` block per corpus
entry, the blocks appear in the corpus's own order (the sequence
`<component>`, `<name>`, entry-name of consecutive entries embeds into the
prompt's trimmed content lines in corpus order), and hence the flag-on
prompt has strictly more blocks whenever the corpus is non-empty.  The
corpus entries are assumed to be well-formed documentation text: names are
single-line, trimmed, non-empty and not themselves the marker line, and
the import/usage texts contain no `<component>` marker line. -/
theorem getSystemPrompt_catalog_blocks (docs : List CatalogEntry)
    (h : ∀ e ∈ docs, '\n' ∉ e.name.data ∧ trimBoth e.name.data = e.name.data ∧
        e.name.data ≠ [] ∧ e.name.data ≠ marker ∧
        (contentLines e.importDocs.data).count marker = 0 ∧
        (contentLines e.usageDocs.data).count marker = 0) :
    blockCount (getSystemPrompt docs false) = 0 ∧
    blockCount (getSystemPrompt docs true) = docs.length ∧
    List.Sublist (docs.flatMap fun e => [marker, "<name>".data, e.name.data])
      (contentLines (getSystemPrompt docs true).data) ∧
    (docs ≠ [] → blockCount (getSystemPrompt docs false)
        < blockCount (getSystemPrompt docs true)) := by
  have hshape : ∀ e ∈ docs, '\n' ∉ e.name.data ∧
      trimBoth e.name.data = e.name.data ∧ e.name.data ≠ [] :=
    fun e he => ⟨(h e he).1, (h e he).2.1, (h e he).2.2.1⟩
  have hfalse : blockCount (getSystemPrompt docs false) = 0 := by
    rw [blockCount, getSystemPrompt_false_lines, List.count_append,
      basePrompt_marker_free, noLibsCore_marker_free]
  have htrue : blockCount (getSystemPrompt docs true) = docs.length := by
    rw [blockCount, getSystemPrompt_true_lines docs hshape]
    simp only [List.count_append]
    rw [basePrompt_marker_free, headCore_marker_free, noLibsCore_marker_free,
      flatMap_entryLines_count docs
        fun e he => ⟨(h e he).2.2.2.1, (h e he).2.2.2.2⟩]
    omega
  refine ⟨hfalse, htrue, ?_, ?_⟩
  · rw [getSystemPrompt_true_lines docs hshape]
    exact (((flatMap_pattern_sublist docs).trans
        (List.sublist_append_left _ (contentLines noLibsCore.data))).trans
        (List.sublist_append_right (contentLines catalogHeadCore.data) _)).trans
      (List.sublist_append_right (contentLines basePrompt.data) _)
  · intro hne
    rw [hfalse, htrue]
    exact List.length_pos.mpr hne

/-- Witness for the catalog-block theorem at a concrete two-entry corpus. -/
theorem getSystemPrompt_catalog_blocks_witness :
    blockCount (getSystemPrompt sampleShadcnDocs false) = 0 ∧
    blockCount (getSystemPrompt sampleShadcnDocs true) = sampleShadcnDocs.length ∧
    List.Sublist
      (sampleShadcnDocs.flatMap fun e => [marker, "<name>".data, e.name.data])
      (contentLines (getSystemPrompt sampleShadcnDocs true).data) ∧
    (sampleShadcnDocs ≠ [] → blockCount (getSystemPrompt sampleShadcnDocs false)
        < blockCount (getSystemPrompt sampleShadcnDocs true)) :=
  getSystemPrompt_catalog_blocks sampleShadcnDocs (by decide)

theorem encodeUtf8_append (a b : String) :
    encodeUtf8 (a ++ b) = encodeUtf8 a ++ encodeUtf8 b := by
  rw [encodeUtf8, encodeUtf8, encodeUtf8, String.data_append,
    List.flatMap_append]

theorem relay_bytes_eq (l : List String) :
    ((l.filter fun t => t ≠ "").map encodeUtf8).flatten
      = encodeUtf8 (concatStrings l) := by
  induction l with
  | nil => rfl
  | cons s rest ih =>
    rw [concatStrings, encodeUtf8_append]
    by_cases hs : s = ""
    · subst hs
      simp only [List.filter_cons]
      simp only [encodeUtf8]
      simpa using ih
    · simp only [List.filter_cons, hs]
      simpa [hs, List.flatten_cons] using congrArg (encodeUtf8 s ++ ·) ih

theorem getLast?_map_toGemini (msgs : List ChatMessage) (last : ChatMessage)
    (h : msgs.getLast? = some last) :
    (msgs.map toGeminiContent).getLast? = some (toGeminiContent last) := by
  rw [List.getLast?_map, h]
  rfl

theorem isPrefixOf_append_left (p y : List Char) :
    List.isPrefixOf p (p ++ y) = true := by
  induction p with
  | nil => simp [List.isPrefixOf]
  | cons c t ih =>
    simp only [List.cons_append, List.isPrefixOf, beq_self_eq_true,
      Bool.true_and]
    exact ih

theorem isPrefixOf_append_mono (p : List Char) (l b : List Char)
    (h : List.isPrefixOf p l = true) : List.isPrefixOf p (l ++ b) = true := by
  induction p generalizing l with
  | nil => simp [List.isPrefixOf]
  | cons c t ih =>
    cases l with
    | nil => simp [List.isPrefixOf] at h
    | cons x xs =>
      simp only [List.isPrefixOf, List.cons_append, Bool.and_eq_true] at h ⊢
      exact ⟨h.1, ih xs h.2⟩

theorem containsSub_nil_pat (l : List Char) : containsSub [] l = true := by
  cases l <;> simp [containsSub, List.isPrefixOf]

theorem containsSub_self_append (p y : List Char) :
    containsSub p (p ++ y) = true := by
  cases p with
  | nil => exact containsSub_nil_pat y
  | cons c t =>
    rw [List.cons_append, containsSub, Bool.or_eq_true]
    exact Or.inl (isPrefixOf_append_left (c :: t) y)

theorem containsSub_append_right (p a b : List Char)
    (h : containsSub p b = true) : containsSub p (a ++ b) = true := by
  induction a with
  | nil => exact h
  | cons c t ih =>
    rw [List.cons_append, containsSub, Bool.or_eq_true]
    exact Or.inr ih

theorem containsSub_append_left (p a b : List Char)
    (h : containsSub p a = true) : containsSub p (a ++ b) = true := by
  induction a with
  | nil =>
    rw [containsSub] at h
    rw [List.nil_append]
    have : p = [] := by simpa using h
    subst this
    exact containsSub_nil_pat b
  | cons c t ih =>
    rw [containsSub, Bool.or_eq_true] at h
    rw [List.cons_append, containsSub, Bool.or_eq_true]
    rcases h with h | h
    · exact Or.inl (isPrefixOf_append_mono _ _ _ h)
    · exact Or.inr (ih h)

theorem message_in_renderIssue (i : ZodIssue) :
    containsSub i.message.data (renderIssue i).data = true := by
  rw [renderIssue]
  simp only [String.data_append, List.append_assoc]
  apply containsSub_append_right
  apply containsSub_append_right
  apply containsSub_append_right
  apply containsSub_append_right
  apply containsSub_append_right
  exact containsSub_self_append _ _

theorem message_in_joinIssues (issues : List ZodIssue) (i : ZodIssue)
    (hi : i ∈ issues) :
    containsSub i.message.data (joinIssues issues).data = true := by
  induction issues with
  | nil => exact absurd hi (List.not_mem_nil _)
  | cons x rest ih =>
    rcases List.mem_cons.mp hi with hi | hi
    · subst hi
      cases rest with
      | nil => exact message_in_renderIssue i
      | cons y ys =>
        have hj : joinIssues (i :: y :: ys)
            = renderIssue i ++ ",\n" ++ joinIssues (y :: ys) := rfl
        rw [hj]
        simp only [String.data_append]
        exact containsSub_append_left _ _ _
          (containsSub_append_left _ _ _ (message_in_renderIssue i))
    · cases rest with
      | nil => exact absurd hi (List.not_mem_nil _)
      | cons y ys =>
        have hj : joinIssues (x :: y :: ys)
            = renderIssue x ++ ",\n" ++ joinIssues (y :: ys) := rfl
        rw [hj]
        simp only [String.data_append, List.append_assoc]
        exact containsSub_append_right _ _ _
          (containsSub_append_right _ _ _ (ih hi))

theorem message_in_errorBody (issues : List ZodIssue) (i : ZodIssue)
    (hi : i ∈ issues) :
    containsSub i.message.data (errorBody issues).data = true := by
  rw [errorBody]
  simp only [String.data_append]
  exact containsSub_append_left _ _ _
    (containsSub_append_right _ _ _ (message_in_joinIssues issues i hi))

/-- C1: for every valid request (well-formed JSON whose `messages` array
is non-empty and well-typed) for which the provider session succeeds, the
handler returns HTTP 200 with `Content-Type: text/plain` and
`Cache-Control: no-cache`, and the enqueued stream chunks are the UTF-8
bytes of exactly the non-empty fragments in order, so that the streamed
body is the in-order concatenation of the text of every fragment the
provider emitted (empty fragments are skipped but contribute nothing), and
the stream is closed normally. -/
theorem valid_request_streams_all_fragments
    (shadcnDocs : List CatalogEntry) (pb : ProviderBehavior) (j : Json)
    (flag : Bool) (msgs : List ChatMessage)
    (hparse : zodParse j = .ok (flag, msgs)) (hne : msgs ≠ [])
    (hsend : pb.sendFails = false) (hstream : pb.streamFails = false) :
    (runPOST shadcnDocs pb (some j)).1
      = .streamed 200 [("Content-Type", "text/plain"), ("Cache-Control", "no-cache")]
          ((pb.fragments.filter fun t => t ≠ "").map encodeUtf8)
          .closedNormally
    ∧ ((pb.fragments.filter fun t => t ≠ "").map encodeUtf8).flatten
        = encodeUtf8 (concatStrings pb.fragments) := by
  have hex : ∃ last, msgs.getLast? = some last := by
    rcases h : msgs.getLast? with _ | last
    · exact absurd (List.getLast?_eq_none_iff.mp h) hne
    · exact ⟨last, rfl⟩
  obtain ⟨last, hlast⟩ := hex
  refine ⟨?_, relay_bytes_eq _⟩
  simp [runPOST, hparse, getLast?_map_toGemini msgs last hlast, hsend,
    hstream, streamHeaders]

/-- Witness for C1 at a concrete one-turn conversation and a three-fragment
stream with one empty fragment. -/
theorem valid_request_streams_all_fragments_witness :
    (runPOST [] ⟨false, ["ab", "", "c"], false⟩
        (some (Json.obj [("messages",
          Json.arr [Json.obj [("role", Json.str "user"),
            ("content", Json.str "hi")]])]))).1
      = .streamed 200 [("Content-Type", "text/plain"), ("Cache-Control", "no-cache")]
          (((["ab", "", "c"] : List String).filter fun t => t ≠ "").map encodeUtf8)
          .closedNormally
    ∧ ((((["ab", "", "c"] : List String).filter fun t => t ≠ "").map encodeUtf8).flatten
        = encodeUtf8 (concatStrings ["ab", "", "c"])) :=
  valid_request_streams_all_fragments [] ⟨false, ["ab", "", "c"], false⟩ _
    false [{ role := .user, content := "hi" }] rfl (by simp) rfl rfl

/-- C2: the single outbound generation call carries only the final turn's
content: its text is the final turn's content with the fixed suffix when
that turn is user-authored and the unchanged content when it is
assistant-authored; consequently two validated conversations with the same
final turn and the same catalog flag produce identical outbound provider
requests, regardless of their earlier turns. -/
theorem outbound_carries_only_final_turn
    (shadcnDocs : List CatalogEntry) (pb pb' : ProviderBehavior) (j j' : Json)
    (flag : Bool) (msgs msgs' : List ChatMessage) (last : ChatMessage)
    (hp : zodParse j = .ok (flag, msgs)) (hlast : msgs.getLast? = some last)
    (hp' : zodParse j' = .ok (flag, msgs'))
    (hlast' : msgs'.getLast? = some last) :
    (runPOST shadcnDocs pb (some j)).2
      = some { history := [{ role := "user",
                             text := getSystemPrompt shadcnDocs flag }],
               text := if last.role = Role.user
                       then last.content ++ geminiSuffix
                       else last.content }
    ∧ (runPOST shadcnDocs pb (some j)).2 = (runPOST shadcnDocs pb' (some j')).2 := by
  have houtbound : ∀ (pb0 : ProviderBehavior) (j0 : Json)
      (msgs0 : List ChatMessage), zodParse j0 = .ok (flag, msgs0) →
      msgs0.getLast? = some last →
      (runPOST shadcnDocs pb0 (some j0)).2
        = some { history := [{ role := "user",
                               text := getSystemPrompt shadcnDocs flag }],
                 text := if last.role = Role.user
                         then last.content ++ geminiSuffix
                         else last.content } := by
    intro pb0 j0 msgs0 hp0 hlast0
    rcases hsend : pb0.sendFails with _ | _ <;>
      simp [runPOST, hp0, getLast?_map_toGemini msgs0 last hlast0, hsend,
        toGeminiContent]
  refine ⟨houtbound pb j msgs hp hlast, ?_⟩
  rw [houtbound pb j msgs hp hlast, houtbound pb' j' msgs' hp' hlast']

/-- Witness for C2: a three-turn and a one-turn conversation with the same
final user turn produce the same outbound request. -/
theorem outbound_carries_only_final_turn_witness :
    (runPOST [] ⟨false, [], false⟩
        (some (Json.obj [("messages", Json.arr
          [Json.obj [("role", Json.str "user"), ("content", Json.str "a")],
           Json.obj [("role", Json.str "assistant"), ("content", Json.str "b")],
           Json.obj [("role", Json.str "user"), ("content", Json.str "go")]])]))).2
      = some { history := [{ role := "user", text := getSystemPrompt [] false }],
               text := if ({ role := .user, content := "go" } : ChatMessage).role = Role.user
                       then ({ role := .user, content := "go" } : ChatMessage).content ++ geminiSuffix
                       else ({ role := .user, content := "go" } : ChatMessage).content }
    ∧ (runPOST [] ⟨false, [], false⟩
        (some (Json.obj [("messages", Json.arr
          [Json.obj [("role", Json.str "user"), ("content", Json.str "a")],
           Json.obj [("role", Json.str "assistant"), ("content", Json.str "b")],
           Json.obj [("role", Json.str "user"), ("content", Json.str "go")]])]))).2
      = (runPOST [] ⟨true, ["x"], true⟩
          (some (Json.obj [("messages", Json.arr
            [Json.obj [("role", Json.str "user"), ("content", Json.str "go")]])]))).2 :=
  outbound_carries_only_final_turn [] ⟨false, [], false⟩ ⟨true, ["x"], true⟩
    _ _ false
    [{ role := .user, content := "a" }, { role := .assistant, content := "b" },
      { role := .user, content := "go" }]
    [{ role := .user, content := "go" }]
    { role := .user, content := "go" } rfl rfl rfl rfl

/-- C4: a request whose JSON body fails schema validation gets HTTP 422,
with the zod issue serialization as body, and the handler returns before
any provider interaction: no outbound request is issued, whatever the
provider would have done. -/
theorem invalid_request_422_before_provider
    (shadcnDocs : List CatalogEntry) (pb : ProviderBehavior) (j : Json)
    (issues : List ZodIssue) (hparse : zodParse j = .error issues) :
    runPOST shadcnDocs pb (some j)
      = (.response 422 [] (errorBody issues), none) := by
  simp [runPOST, hparse]

/-- Witness for C4 at a payload with no `messages` field. -/
theorem invalid_request_422_before_provider_witness :
    runPOST [] ⟨false, ["x"], false⟩ (some (Json.obj []))
      = (.response 422 [] (errorBody [requiredIssue [.key "messages"]]), none) :=
  invalid_request_422_before_provider [] ⟨false, ["x"], false⟩ _
    [requiredIssue [.key "messages"]] rfl

/-- C5: every failure inside the generation stage before the streaming
response is returned (the empty-conversation access throwing, or
`sendMessageStream` rejecting, e.g. for a missing or invalid credential)
yields HTTP 500 whose body is exactly the fixed constant JSON text, for
every provider behaviour alike, so the body never depends on the thrown
error. -/
theorem prestream_failure_generic_500
    (shadcnDocs : List CatalogEntry) (pb : ProviderBehavior) (j : Json)
    (flag : Bool) (msgs : List ChatMessage)
    (hparse : zodParse j = .ok (flag, msgs))
    (hfail : msgs = [] ∨ pb.sendFails = true) :
    (runPOST shadcnDocs pb (some j)).1
      = .response 500 [] "\x7b\"error\":\"Failed to generate response\"\x7d" := by
  rcases hfail with hempty | hsend
  · subst hempty
    simp [runPOST, hparse, genericErrorBody]
  · rcases hex : msgs.getLast? with _ | last
    · have : msgs = [] := List.getLast?_eq_none_iff.mp hex
      subst this
      simp [runPOST, hparse, genericErrorBody]
    · simp [runPOST, hparse, getLast?_map_toGemini msgs last hex, hsend,
        genericErrorBody]

/-- Witness for C5 with a rejecting provider session. -/
theorem prestream_failure_generic_500_witness :
    (runPOST [] ⟨true, ["x"], false⟩
        (some (Json.obj [("messages", Json.arr
          [Json.obj [("role", Json.str "user"), ("content", Json.str "hi")]])]))).1
      = .response 500 [] "\x7b\"error\":\"Failed to generate response\"\x7d" :=
  prestream_failure_generic_500 [] ⟨true, ["x"], false⟩ _ false
    [{ role := .user, content := "hi" }] rfl (Or.inr rfl)

/-- C6: if the provider's fragment sequence fails after some fragments
have been forwarded, the handler's only HTTP artefact is the single 200
streaming response whose chunks are exactly the bytes of the non-empty
fragments before the failure (no further bytes, no second status line, no
500 body), and the stream ends in the errored state, not as a normal
close. -/
theorem midstream_failure_errors_stream
    (shadcnDocs : List CatalogEntry) (pb : ProviderBehavior) (j : Json)
    (flag : Bool) (msgs : List ChatMessage)
    (hparse : zodParse j = .ok (flag, msgs)) (hne : msgs ≠ [])
    (hsend : pb.sendFails = false) (hstream : pb.streamFails = true) :
    (runPOST shadcnDocs pb (some j)).1
      = .streamed 200 streamHeaders
          ((pb.fragments.filter fun t => t ≠ "").map encodeUtf8) .errored
    ∧ StreamEnd.errored ≠ StreamEnd.closedNormally := by
  have hex : ∃ last, msgs.getLast? = some last := by
    rcases h : msgs.getLast? with _ | last
    · exact absurd (List.getLast?_eq_none_iff.mp h) hne
    · exact ⟨last, rfl⟩
  obtain ⟨last, hlast⟩ := hex
  refine ⟨?_, by decide⟩
  simp [runPOST, hparse, getLast?_map_toGemini msgs last hlast, hsend, hstream]

/-- Witness for C6 with one fragment delivered before the failure. -/
theorem midstream_failure_errors_stream_witness :
    (runPOST [] ⟨false, ["partial"], true⟩
        (some (Json.obj [("messages", Json.arr
          [Json.obj [("role", Json.str "user"), ("content", Json.str "hi")]])]))).1
      = .streamed 200 streamHeaders
          (((["partial"] : List String).filter fun t => t ≠ "").map encodeUtf8)
          .errored
    ∧ StreamEnd.errored ≠ StreamEnd.closedNormally :=
  midstream_failure_errors_stream [] ⟨false, ["partial"], true⟩ _ false
    [{ role := .user, content := "hi" }] rfl (by simp) rfl rfl

/-- C7 counterexample: the claim says even a request whose body is not
parseable as JSON is caught and answered; in the code `await req.json()`
(line 10) sits outside the try/catch, so its rejection escapes the POST
handler unhandled and no response is produced. -/
theorem unparsable_body_escapes_handler :
    runPOST [] ⟨false, [], false⟩ none = (.unhandled, none) := rfl

/-- C7 amended: for every request whose body does parse as JSON, no
failure escapes the handler: some HTTP response (200, 422 or 500) is
always produced; only the JSON-parse failure itself escapes as an
unhandled exception. -/
theorem json_body_always_gets_response
    (shadcnDocs : List CatalogEntry) (pb : ProviderBehavior) (j : Json) :
    (runPOST shadcnDocs pb (some j)).1 ≠ .unhandled
    ∧ ∃ s, statusOf (runPOST shadcnDocs pb (some j)).1 = some s
        ∧ (s = 200 ∨ s = 422 ∨ s = 500) := by
  rcases hp : zodParse j with issues | ⟨flag, msgs⟩
  · refine ⟨?_, 422, ?_, by simp⟩ <;> simp [runPOST, hp, statusOf]
  · rcases hlast : (msgs.map toGeminiContent).getLast? with _ | last
    · refine ⟨?_, 500, ?_, by simp⟩ <;> simp [runPOST, hp, hlast, statusOf]
    · rcases hsend : pb.sendFails with _ | _
      · refine ⟨?_, 200, ?_, by simp⟩ <;>
          simp [runPOST, hp, hlast, hsend, statusOf]
      · refine ⟨?_, 500, ?_, by simp⟩ <;>
          simp [runPOST, hp, hlast, hsend, statusOf]

/-- C8 counterexample: a payload with two schema violations (a numeric
`shadcn` and a string `messages`) produces a 422 body that serializes both
issues — in particular the second violation's description occurs in the
body — so the body does not describe only the first violation. -/
theorem multi_violation_body_lists_all :
    zodParse (Json.obj [("shadcn", Json.num 5), ("messages", Json.str "x")])
      = .error [typeIssue "boolean" (Json.num 5) [.key "shadcn"],
          typeIssue "array" (Json.str "x") [.key "messages"]]
    ∧ (runPOST [] ⟨false, [], false⟩
        (some (Json.obj [("shadcn", Json.num 5), ("messages", Json.str "x")]))).1
      = .response 422 []
          (errorBody [typeIssue "boolean" (Json.num 5) [.key "shadcn"],
            typeIssue "array" (Json.str "x") [.key "messages"]])
    ∧ errorBody [typeIssue "boolean" (Json.num 5) [.key "shadcn"],
          typeIssue "array" (Json.str "x") [.key "messages"]]
        ≠ errorBody [typeIssue "boolean" (Json.num 5) [.key "shadcn"]]
    ∧ containsSub
        (typeIssue "array" (Json.str "x") [.key "messages"]).message.data
        (errorBody [typeIssue "boolean" (Json.num 5) [.key "shadcn"],
          typeIssue "array" (Json.str "x") [.key "messages"]]).data = true := by
  refine ⟨rfl, rfl, ?_, ?_⟩ <;> decide

/-- C8 amended: on shape mismatch the 422 body is the serialization of
every violation zod collected: the response body is the rendering of the
full issue list, and each issue's human-readable description occurs in the
body, not only the first one. -/
theorem invalid_body_describes_every_violation
    (shadcnDocs : List CatalogEntry) (pb : ProviderBehavior) (j : Json)
    (issues : List ZodIssue) (hparse : zodParse j = .error issues) :
    (runPOST shadcnDocs pb (some j)).1 = .response 422 [] (errorBody issues)
    ∧ ∀ i ∈ issues,
        containsSub i.message.data (errorBody issues).data = true := by
  refine ⟨by simp [runPOST, hparse], fun i hi => message_in_errorBody issues i hi⟩

/-- Witness for the amended C8 at the two-violation payload. -/
theorem invalid_body_describes_every_violation_witness :
    (runPOST [] ⟨false, [], false⟩
        (some (Json.obj [("shadcn", Json.num 5), ("messages", Json.str "x")]))).1
      = .response 422 []
          (errorBody [typeIssue "boolean" (Json.num 5) [.key "shadcn"],
            typeIssue "array" (Json.str "x") [.key "messages"]])
    ∧ ∀ i ∈ [typeIssue "boolean" (Json.num 5) [.key "shadcn"],
          typeIssue "array" (Json.str "x") [.key "messages"]],
        containsSub i.message.data
          (errorBody [typeIssue "boolean" (Json.num 5) [.key "shadcn"],
            typeIssue "array" (Json.str "x") [.key "messages"]]).data = true :=
  invalid_body_describes_every_violation [] ⟨false, [], false⟩ _ _ rfl

/-- C9: a well-formed payload with an empty `messages` array passes
validation (no 422); the final-element access then fails inside the
guarded region, so the handler returns the generic HTTP 500 and no
generation call is ever issued. -/
theorem empty_conversation_500_no_call
    (shadcnDocs : List CatalogEntry) (pb : ProviderBehavior) (j : Json)
    (flag : Bool) (hparse : zodParse j = .ok (flag, [])) :
    runPOST shadcnDocs pb (some j)
      = (.response 500 [] genericErrorBody, none) := by
  simp [runPOST, hparse]

/-- Witness for C9 at the payload whose `messages` is the empty array. -/
theorem empty_conversation_500_no_call_witness :
    runPOST [] ⟨false, ["x"], false⟩
        (some (Json.obj [("messages", Json.arr [])]))
      = (.response 500 [] genericErrorBody, none) :=
  empty_conversation_500_no_call [] ⟨false, ["x"], false⟩ _ false rfl

/-- C10: the handler's observable behaviour depends only on the `shadcn`
and `messages` fields of the JSON payload: two object payloads that agree
on those two fields — whatever additional unknown keys either carries —
produce the same validation outcome, outbound provider request and HTTP
outcome (unknown keys are stripped, not rejected). -/
theorem unknown_keys_ignored
    (shadcnDocs : List CatalogEntry) (pb : ProviderBehavior)
    (fields fields' : List (String × Json))
    (hsh : lookupField fields "shadcn" = lookupField fields' "shadcn")
    (hmsg : lookupField fields "messages" = lookupField fields' "messages") :
    runPOST shadcnDocs pb (some (Json.obj fields))
      = runPOST shadcnDocs pb (some (Json.obj fields')) := by
  have hz : zodParse (Json.obj fields) = zodParse (Json.obj fields') := by
    rw [zodParse, zodParse, hsh, hmsg]
  rw [runPOST, runPOST, hz]

/-- Witness for C10: an extra unknown key leaves the outcome unchanged. -/
theorem unknown_keys_ignored_witness :
    runPOST [] ⟨false, ["x"], false⟩
        (some (Json.obj [("messages", Json.arr []), ("extra", Json.num 1)]))
      = runPOST [] ⟨false, ["x"], false⟩
          (some (Json.obj [("messages", Json.arr [])])) :=
  unknown_keys_ignored [] ⟨false, ["x"], false⟩
    [("messages", Json.arr []), ("extra", Json.num 1)]
    [("messages", Json.arr [])] rfl rfl

end CoderAI
